import Mathlib

/-!
Verification of the admin command dispatcher of `manager_bot`
(`src/manager_bot/admin.py`).

The module is sequential validation-then-delegate glue over a Telegram bot:
every command handler resolves the caller identity, compares it with the
`ADMIN_ID` environment variable, parses positional arguments, checks
readiness predicates from external services, and forwards to an external
pipeline-triggering coroutine, with a uniform `try/except` that logs the
error and notifies the admin channel.

We embed each handler as a pure function from an environment record (the
values the handler reads: environment variables, the resolved caller
identity, the command arguments, the records store, the readiness
predicates, the filesystem, and the outcomes of external transport and
delegate calls) to a pair of an event trace and an optional uncaught
exception message.  External chat sends (`send_message_to_user`,
`bot.send_message`, `bot.send_document`) are modelled as trace events;
delegate and transport failures are injected through `Except`-valued
environment fields so the exception paths of the source are exercised.
-/

set_option autoImplicit false

namespace ManagerBot

/-- Observable effects of a handler run: log lines, messages sent to the
calling chat (`send_message_to_user`), calls of the admin-notification
helper, the actual transport send inside that helper, direct
`bot.send_message` sends, delegate (pipeline-triggering) calls with their
target user and extra arguments, filesystem existence checks, file opens,
and document sends. -/
inductive Event where
  | logInfo (msg : String)
  | logDebug (msg : String)
  | logWarning (msg : String)
  | logError (msg : String)
  | userMsg (text : String)
  | adminCall (text : String)
  | adminSend (chat_id : Int) (text : String)
  | botSend (chat_id : Int) (text : String)
  | delegate (name : String) (target : String) (extra : List String)
  | fsCheck (path : String)
  | fileOpen (path : String)
  | docSend (chat_id : String) (file_name : String)
deriving Repr, DecidableEq

/-- Everything a single handler invocation reads from its surroundings.
`ADMIN_ID` and `USERS_DATA_DIR` are the results of the `os.getenv` reads
(the Python defaults `""` and `"/users_data"` already applied); `callerId`
is the result of `str(get_tg_user_data_attribute_from_update_object(...))`
(`Except.error` when that call raises); `args` is `context.args` (Python
`None` becomes `[]`); `records` are the user ids for which
`is_user_in_records` holds; the `is_*` fields are the imported readiness
predicates; `fsFiles` is the set of existing files, as OS-resolved paths;
the `*Result` fields give the outcome of each external call
(`Except.error` models a raised exception). -/
structure Env where
  ADMIN_ID : String
  USERS_DATA_DIR : String
  callerId : Except String String
  args : List String
  appAvailable : Bool
  botAvailable : Bool
  effectiveChatId : String
  records : List String
  is_vacancy_description_recieved : String → Bool
  is_vacancy_sourcing_criterias_recieved : String → Bool
  is_vacancy_selected : String → Bool
  is_vacany_data_enough_for_resume_analysis : String → Bool
  get_target_vacancy_id_from_records : String → String
  listUsersResult : Except String String
  fsFiles : List String
  delegateResult : String → String → Except String Unit
  botSendResult : Int → String → Except String Unit
  docSendResult : Except String Unit

/-- Modelled from the spec: the fixed "not authorized" message
(`FAIL_TO_IDENTIFY_USER_AS_ADMIN_TEXT` imported from `services.constants`,
whose source is not in the repository snapshot). -/
def FAIL_TO_IDENTIFY_USER_AS_ADMIN_TEXT : String :=
  "Fail to identify user as admin."

/-- Modelled from the spec: the fixed technical-support failure message
(`FAIL_TECHNICAL_SUPPORT_TEXT` imported from `services.constants`, whose
source is not in the repository snapshot). -/
def FAIL_TECHNICAL_SUPPORT_TEXT : String :=
  "Something went wrong. Please contact technical support."

/-- `is_user_in_records` from `services.status_validation_service`,
modelled as membership in the environment record store. -/
def is_user_in_records (env : Env) (record_id : String) : Bool :=
  env.records.contains record_id

/-- Splitting a character list at a separator character; agrees with
`String.splitOn` on a one-character separator, written structurally so
that it evaluates inside the kernel. -/
def splitChar (sep : Char) : List Char → List (List Char)
  | [] => [[]]
  | c :: rest =>
      match splitChar sep rest with
      | [] => [[]]
      | s :: tail => if c = sep then [] :: s :: tail else (c :: s) :: tail

/-- The `/`-separated components of a path. -/
def pathParts (p : String) : List String :=
  (splitChar '/' p.toList).map String.mk

/-- Whether a path is absolute (starts with `/`). -/
def isAbsolute (p : String) : Bool :=
  match p.toList with
  | '/' :: _ => true
  | _ => false

/-- The last nonempty `/`-separated component of a path: `pathlib`
`Path(p).name` for the path shapes the module builds. -/
def pathName (p : String) : String :=
  ((pathParts p).filter (fun s => s ≠ "")).getLastD ""

/-- Index of the last `.` in a list of characters, if any. -/
def lastDotIndex (cs : List Char) : Option Nat :=
  (List.range cs.length).foldl
    (fun acc i => if cs.getD i ' ' = '.' then some i else acc) none

/-- `pathlib` `Path(p).suffix`: the substring of the name from its last
dot, provided that dot is neither the first nor the last character of the
name; `""` otherwise. -/
def pathSuffix (p : String) : String :=
  let n := (pathName p).toList
  match lastDotIndex n with
  | some i => if 0 < i ∧ i + 1 < n.length then String.mk (n.drop i) else ""
  | none => ""

/-- `pathlib` joining (`data_dir / rel`): an absolute right operand
replaces the left one; otherwise the components are concatenated. -/
def pathJoin (root rel : String) : String :=
  if isAbsolute rel then rel else root ++ "/" ++ rel

/-- Normalised component list of a path, resolving `.`, `..` and empty
segments the way the operating system does when a path is accessed. -/
def normSegs (p : String) : List String :=
  (pathParts p).foldl
    (fun acc seg =>
      if seg = "" ∨ seg = "." then acc
      else if seg = ".." then acc.dropLast
      else acc ++ [seg]) []

/-- `Path(p).exists()` against the environment filesystem: the path is
OS-resolved before lookup, so `..` segments escape their directory. -/
def fsHas (fsFiles : List String) (p : String) : Bool :=
  fsFiles.any (fun q => normSegs q == normSegs p)

/-- Spec-side notion for the file-pull claims: the resolved path lies
under the configured data root. -/
def isUnderRoot (root p : String) : Bool :=
  (normSegs root).isPrefixOf (normSegs p)

/-- All-decimal-digit parse of a character list, `none` when empty or when
a non-digit occurs. -/
def digitsVal (cs : List Char) : Option Nat :=
  if cs.isEmpty then none
  else
    cs.foldl
      (fun acc c =>
        match acc with
        | none => none
        | some n => if c.isDigit then some (n * 10 + (c.toNat - 48)) else none)
      (some 0)

/-- Python `int(s)` for strings without surrounding whitespace or
underscores (the only shapes this module feeds it): an optional sign
followed by decimal digits, raising `ValueError` otherwise. -/
def pyInt (s : String) : Except String Int :=
  match s.toList with
  | '-' :: rest =>
      match digitsVal rest with
      | some n => .ok (-(n : Int))
      | none => .error ("invalid literal for int() with base 10: " ++ s)
  | '+' :: rest =>
      match digitsVal rest with
      | some n => .ok (n : Int)
      | none => .error ("invalid literal for int() with base 10: " ++ s)
  | cs =>
      match digitsVal cs with
      | some n => .ok (n : Int)
      | none => .error ("invalid literal for int() with base 10: " ++ s)

/-- `send_message_to_admin`: returns early when `ADMIN_ID` is unset or
empty; otherwise, when the application and bot instances are available,
converts `ADMIN_ID` with `int` and sends; every exception of that block
(`int` failure or transport failure) is caught and logged.  The second
component is the uncaught exception, always `none`. -/
def send_message_to_admin (env : Env) (text : String) : List Event × Option String :=
  if env.ADMIN_ID = "" then
    ([Event.logError "send_message_to_admin:ADMIN_ID environment variable is not set. Cannot send admin notification."], none)
  else
    if env.appAvailable ∧ env.botAvailable then
      match pyInt env.ADMIN_ID with
      | .error e =>
          ([Event.logError ("send_message_to_admin: Failed to send admin notification: " ++ e)], none)
      | .ok chat_id =>
          match env.botSendResult chat_id text with
          | .ok _ =>
              ([Event.adminSend chat_id text,
                Event.logDebug ("send_message_to_admin: Admin notification sent successfully to admin_id: " ++ env.ADMIN_ID)], none)
          | .error e =>
              ([Event.logError ("send_message_to_admin: Failed to send admin notification: " ++ e)], none)
    else
      ([Event.logWarning "send_message_to_admin: Cannot send admin notification: application or bot instance not available"], none)

/-- The caller id used in error reports: the resolved id when
`bot_user_id` was bound before the exception, the literal `"unknown"`
when identity resolution itself raised (`bot_user_id if ... in locals()
else ...`). -/
def callerOrUnknown (env : Env) : String :=
  match env.callerId with
  | .ok s => s
  | .error _ => "unknown"

/-- The shared `except Exception` tail of the handlers: log the failure,
then, when `context.application` is truthy, call `send_message_to_admin`
with the command-specific report text, the exception text and the caller
id.  No exception escapes. -/
def handlerWrap (env : Env) (logPre reportPre : String)
    (body : List Event × Option String) : List Event × Option String :=
  match body.2 with
  | none => (body.1, none)
  | some e =>
      let evs1 := body.1 ++ [Event.logError (logPre ++ e)]
      if env.appAvailable then
        let report := reportPre ++ e ++ "\nAdmin ID: " ++ callerOrUnknown env
        (evs1 ++ [Event.adminCall report] ++ (send_message_to_admin env report).1, none)
      else (evs1, none)

/-- Texts sent to the calling chat via `send_message_to_user`. -/
def userMsgs (evs : List Event) : List String :=
  evs.filterMap fun e => match e with | .userMsg t => some t | _ => none

/-- Texts with which `send_message_to_admin` was called. -/
def adminCalls (evs : List Event) : List String :=
  evs.filterMap fun e => match e with | .adminCall t => some t | _ => none

/-- Actual admin-channel transport sends. -/
def adminSends (evs : List Event) : List (Int × String) :=
  evs.filterMap fun e => match e with | .adminSend c t => some (c, t) | _ => none

/-- Direct `bot.send_message` sends. -/
def botSends (evs : List Event) : List (Int × String) :=
  evs.filterMap fun e => match e with | .botSend c t => some (c, t) | _ => none

/-- Delegate (pipeline-triggering) calls, as (name, target user). -/
def delegatesOf (evs : List Event) : List (String × String) :=
  evs.filterMap fun e => match e with | .delegate n t _ => some (n, t) | _ => none

/-- Filesystem existence checks performed. -/
def fsChecks (evs : List Event) : List String :=
  evs.filterMap fun e => match e with | .fsCheck p => some p | _ => none

/-- File opens performed. -/
def fileOpens (evs : List Event) : List String :=
  evs.filterMap fun e => match e with | .fileOpen p => some p | _ => none

/-- Document (file content) sends performed. -/
def docSends (evs : List Event) : List (String × String) :=
  evs.filterMap fun e => match e with | .docSend c f => some (c, f) | _ => none

/-- Body of `admin_get_users_command` (the `try` block): resolve the
caller, authorize, then send the list of users from records to the
calling chat. -/
def admin_get_users_body (env : Env) : List Event × Option String :=
  match env.callerId with
  | .error e => ([], some e)
  | .ok bot_user_id =>
      let evs0 := [Event.logInfo ("admin_get_users_command: started. User_id: " ++ bot_user_id)]
      if env.ADMIN_ID = "" ∨ bot_user_id ≠ env.ADMIN_ID then
        (evs0 ++ [Event.userMsg FAIL_TO_IDENTIFY_USER_AS_ADMIN_TEXT,
                  Event.logError ("Unauthorized for " ++ bot_user_id)], none)
      else
        match env.listUsersResult with
        | .error e => (evs0, some e)
        | .ok user_ids =>
            (evs0 ++ [Event.userMsg ("📋 List of users: " ++ user_ids)], none)

/-- `admin_get_users_command`. -/
def admin_get_users_command (env : Env) : List Event × Option String :=
  handlerWrap env
    "admin_get_users_command: Failed to execute admin_get_list_of_users command: "
    "⚠️ Error admin_get_users_command: "
    (admin_get_users_body env)

/-- Body of `admin_get_fresh_resumes_command`: authorize, require exactly
one nonempty argument naming a user in records with enough vacancy data,
then trigger resume sourcing and confirm. -/
def admin_get_fresh_resumes_body (env : Env) : List Event × Option String :=
  match env.callerId with
  | .error e => ([], some e)
  | .ok bot_user_id =>
      let evs0 := [Event.logInfo ("admin_get_fresh_resumes_command: started. User_id: " ++ bot_user_id)]
      if env.ADMIN_ID = "" ∨ bot_user_id ≠ env.ADMIN_ID then
        (evs0 ++ [Event.userMsg FAIL_TO_IDENTIFY_USER_AS_ADMIN_TEXT,
                  Event.logError ("Unauthorized for " ++ bot_user_id)], none)
      else
        match env.args with
        | [target_user_id] =>
            if target_user_id ≠ "" then
              if is_user_in_records env target_user_id then
                if env.is_vacany_data_enough_for_resume_analysis target_user_id then
                  match env.delegateResult "source_resumes_triggered_by_admin_command" target_user_id with
                  | .ok _ =>
                      (evs0 ++ [Event.delegate "source_resumes_triggered_by_admin_command" target_user_id [],
                                Event.userMsg ("Fresh resumes collected for user " ++ target_user_id ++ ".")], none)
                  | .error e =>
                      (evs0 ++ [Event.delegate "source_resumes_triggered_by_admin_command" target_user_id []], some e)
                else
                  (evs0, some ("User " ++ target_user_id ++ " does not have enough vacancy data for resume analysis."))
              else
                (evs0, some ("User " ++ target_user_id ++ " not found in records."))
            else
              (evs0, some "Invalid command arguments.")
        | _ => (evs0, some "Invalid number of arguments.")

/-- `admin_get_fresh_resumes_command`. -/
def admin_get_fresh_resumes_command (env : Env) : List Event × Option String :=
  handlerWrap env
    "admin_get_fresh_resumes_command: Failed to execute command: "
    "⚠️ Error admin_get_fresh_resumes_command: "
    (admin_get_fresh_resumes_body env)

/-- Body of `admin_get_user_status_command`: authorize, require exactly
one nonempty argument naming a user in records, then trigger the
readiness notification to the admin. -/
def admin_get_user_status_body (env : Env) : List Event × Option String :=
  match env.callerId with
  | .error e => ([], some e)
  | .ok bot_user_id =>
      let evs0 := [Event.logInfo ("admin_get_user_status_command: started. User_id: " ++ bot_user_id)]
      if env.ADMIN_ID = "" ∨ bot_user_id ≠ env.ADMIN_ID then
        (evs0 ++ [Event.userMsg FAIL_TO_IDENTIFY_USER_AS_ADMIN_TEXT,
                  Event.logError ("Unauthorized for " ++ bot_user_id)], none)
      else
        match env.args with
        | [target_user_id] =>
            if target_user_id ≠ "" then
              if is_user_in_records env target_user_id then
                match env.delegateResult "inform_admin_about_user_readiness" target_user_id with
                | .ok _ =>
                    (evs0 ++ [Event.delegate "inform_admin_about_user_readiness" target_user_id []], none)
                | .error e =>
                    (evs0 ++ [Event.delegate "inform_admin_about_user_readiness" target_user_id []], some e)
              else
                (evs0, some ("User " ++ target_user_id ++ " not found in records."))
            else
              (evs0, some "Invalid command arguments.")
        | _ => (evs0, some "Invalid number of arguments.")

/-- `admin_get_user_status_command`. -/
def admin_get_user_status_command (env : Env) : List Event × Option String :=
  handlerWrap env
    "admin_get_user_status_command: Failed to execute command: "
    "⚠️ Error admin_get_user_status_command: "
    (admin_get_user_status_body env)

/-- Body of `admin_anazlyze_sourcing_criterais_command`: gated on
`is_vacancy_description_recieved`; triggers sourcing-criteria derivation
and confirms. -/
def admin_anazlyze_sourcing_criterais_body (env : Env) : List Event × Option String :=
  match env.callerId with
  | .error e => ([], some e)
  | .ok bot_user_id =>
      let evs0 := [Event.logInfo ("admin_anazlyze_sourcing_criterais_command: started. User_id: " ++ bot_user_id)]
      if env.ADMIN_ID = "" ∨ bot_user_id ≠ env.ADMIN_ID then
        (evs0 ++ [Event.userMsg FAIL_TO_IDENTIFY_USER_AS_ADMIN_TEXT,
                  Event.logError ("Unauthorized for " ++ bot_user_id)], none)
      else
        match env.args with
        | [target_user_id] =>
            if target_user_id ≠ "" then
              if is_user_in_records env target_user_id then
                if env.is_vacancy_description_recieved target_user_id then
                  match env.delegateResult "define_sourcing_criterias_triggered_by_admin_command" target_user_id with
                  | .ok _ =>
                      (evs0 ++ [Event.delegate "define_sourcing_criterias_triggered_by_admin_command" target_user_id [],
                                Event.userMsg ("Taks for analysing sourcing criterias is in task_queue for user " ++ target_user_id ++ ".")], none)
                  | .error e =>
                      (evs0 ++ [Event.delegate "define_sourcing_criterias_triggered_by_admin_command" target_user_id []], some e)
                else
                  (evs0, some ("User " ++ target_user_id ++ " does not have vacancy description received."))
              else
                (evs0, some ("User " ++ target_user_id ++ " not found in records."))
            else
              (evs0, some "Invalid command arguments.")
        | _ => (evs0, some "Invalid number of arguments.")

/-- `admin_anazlyze_sourcing_criterais_command`. -/
def admin_anazlyze_sourcing_criterais_command (env : Env) : List Event × Option String :=
  handlerWrap env
    "admin_anazlyze_sourcing_criterais_command: Failed to execute command: "
    "⚠️ Error admin_anazlyze_sourcing_criterais_command: "
    (admin_anazlyze_sourcing_criterais_body env)

/-- Body of `admin_send_sourcing_criterais_to_user_command`: gated on
`is_vacancy_sourcing_criterias_recieved`; note the unmet-predicate message
of the source speaks of vacancy data for resume analysis. -/
def admin_send_sourcing_criterais_to_user_body (env : Env) : List Event × Option String :=
  match env.callerId with
  | .error e => ([], some e)
  | .ok bot_user_id =>
      let evs0 := [Event.logInfo ("admin_send_sourcing_criterais_to_user_command: started. User_id: " ++ bot_user_id)]
      if env.ADMIN_ID = "" ∨ bot_user_id ≠ env.ADMIN_ID then
        (evs0 ++ [Event.userMsg FAIL_TO_IDENTIFY_USER_AS_ADMIN_TEXT,
                  Event.logError ("Unauthorized for " ++ bot_user_id)], none)
      else
        match env.args with
        | [target_user_id] =>
            if target_user_id ≠ "" then
              if is_user_in_records env target_user_id then
                let evs1 := evs0 ++ [Event.logDebug ("User " ++ target_user_id ++ " found in records.")]
                if env.is_vacancy_sourcing_criterias_recieved target_user_id then
                  match env.delegateResult "send_to_user_sourcing_criterias_triggered_by_admin_command" target_user_id with
                  | .ok _ =>
                      (evs1 ++ [Event.delegate "send_to_user_sourcing_criterias_triggered_by_admin_command" target_user_id [],
                                Event.userMsg ("Sourcing criterias sent to user " ++ target_user_id ++ ".")], none)
                  | .error e =>
                      (evs1 ++ [Event.delegate "send_to_user_sourcing_criterias_triggered_by_admin_command" target_user_id []], some e)
                else
                  (evs1, some ("User " ++ target_user_id ++ " does not have enough vacancy data for resume analysis."))
              else
                (evs0, some ("User " ++ target_user_id ++ " not found in records."))
            else
              (evs0, some "Invalid command arguments.")
        | _ => (evs0, some "Invalid number of arguments.")

/-- `admin_send_sourcing_criterais_to_user_command`. -/
def admin_send_sourcing_criterais_to_user_command (env : Env) : List Event × Option String :=
  handlerWrap env
    "admin_send_sourcing_criterais_to_user_command: Failed: "
    "⚠️ Error admin_send_sourcing_criterais_to_user_command: "
    (admin_send_sourcing_criterais_to_user_body env)

/-- Body of `admin_update_negotiations_command`: gated on
`is_vacancy_selected`; note the unmet-predicate message of the source
speaks of vacancy data for resume analysis. -/
def admin_update_negotiations_body (env : Env) : List Event × Option String :=
  match env.callerId with
  | .error e => ([], some e)
  | .ok bot_user_id =>
      let evs0 := [Event.logInfo ("admin_update_negotiations_command: started. User_id: " ++ bot_user_id)]
      if env.ADMIN_ID = "" ∨ bot_user_id ≠ env.ADMIN_ID then
        (evs0 ++ [Event.userMsg FAIL_TO_IDENTIFY_USER_AS_ADMIN_TEXT,
                  Event.logError ("Unauthorized for " ++ bot_user_id)], none)
      else
        match env.args with
        | [target_user_id] =>
            if target_user_id ≠ "" then
              if is_user_in_records env target_user_id then
                if env.is_vacancy_selected target_user_id then
                  match env.delegateResult "source_negotiations_triggered_by_admin_command" target_user_id with
                  | .ok _ =>
                      (evs0 ++ [Event.delegate "source_negotiations_triggered_by_admin_command" target_user_id [],
                                Event.userMsg ("Negotiations collection updated for user " ++ target_user_id ++ ".")], none)
                  | .error e =>
                      (evs0 ++ [Event.delegate "source_negotiations_triggered_by_admin_command" target_user_id []], some e)
                else
                  (evs0, some ("User " ++ target_user_id ++ " does not have enough vacancy data for resume analysis."))
              else
                (evs0, some ("User " ++ target_user_id ++ " not found in records."))
            else
              (evs0, some "Invalid command arguments.")
        | _ => (evs0, some "Invalid number of arguments.")

/-- `admin_update_negotiations_command`. -/
def admin_update_negotiations_command (env : Env) : List Event × Option String :=
  handlerWrap env
    "admin_update_negotiations_command: Failed to execute command: "
    "⚠️ Error admin_update_negotiations_command: "
    (admin_update_negotiations_body env)

/-- Body of `admin_anazlyze_resumes_command`: gated on
`is_vacany_data_enough_for_resume_analysis`; sends a start message,
triggers resume analysis, then sends a done message. -/
def admin_anazlyze_resumes_body (env : Env) : List Event × Option String :=
  match env.callerId with
  | .error e => ([], some e)
  | .ok bot_user_id =>
      let evs0 := [Event.logInfo ("admin_anazlyze_resumes_command: started. User_id: " ++ bot_user_id)]
      if env.ADMIN_ID = "" ∨ bot_user_id ≠ env.ADMIN_ID then
        (evs0 ++ [Event.userMsg FAIL_TO_IDENTIFY_USER_AS_ADMIN_TEXT,
                  Event.logError ("Unauthorized for " ++ bot_user_id)], none)
      else
        match env.args with
        | [target_user_id] =>
            if target_user_id ≠ "" then
              if is_user_in_records env target_user_id then
                if env.is_vacany_data_enough_for_resume_analysis target_user_id then
                  let evs1 := evs0 ++ [Event.userMsg ("Start creating tasks for analysis of the fresh resumes for user " ++ target_user_id ++ ".")]
                  match env.delegateResult "analyze_resume_triggered_by_admin_command" target_user_id with
                  | .ok _ =>
                      (evs1 ++ [Event.delegate "analyze_resume_triggered_by_admin_command" target_user_id [],
                                Event.userMsg ("Analysis of fresh resumes is done for user " ++ target_user_id ++ ".")], none)
                  | .error e =>
                      (evs1 ++ [Event.delegate "analyze_resume_triggered_by_admin_command" target_user_id []], some e)
                else
                  (evs0, some ("User " ++ target_user_id ++ " does not have enough vacancy data for resume analysis."))
              else
                (evs0, some ("User " ++ target_user_id ++ " not found in records."))
            else
              (evs0, some "Invalid command arguments.")
        | _ => (evs0, some "Invalid number of arguments.")

/-- `admin_anazlyze_resumes_command`. -/
def admin_anazlyze_resumes_command (env : Env) : List Event × Option String :=
  handlerWrap env
    "admin_anazlyze_resumes_command: Failed to execute command: "
    "⚠️ Error admin_anazlyze_resumes_command: "
    (admin_anazlyze_resumes_body env)

/-- Body of
`admin_update_resume_records_with_applicants_video_status_command`: gated
on `is_vacany_data_enough_for_resume_analysis`; looks up the target
vacancy id and triggers the video-status refresh. -/
def admin_update_resume_records_with_applicants_video_status_body (env : Env) : List Event × Option String :=
  match env.callerId with
  | .error e => ([], some e)
  | .ok bot_user_id =>
      let evs0 := [Event.logInfo ("admin_update_resume_records_with_applicants_video_status_command: started. User_id: " ++ bot_user_id)]
      if env.ADMIN_ID = "" ∨ bot_user_id ≠ env.ADMIN_ID then
        (evs0 ++ [Event.userMsg FAIL_TO_IDENTIFY_USER_AS_ADMIN_TEXT,
                  Event.logError ("Unauthorized for " ++ bot_user_id)], none)
      else
        match env.args with
        | [target_user_id] =>
            if target_user_id ≠ "" then
              if is_user_in_records env target_user_id then
                if env.is_vacany_data_enough_for_resume_analysis target_user_id then
                  let target_user_vacancy_id := env.get_target_vacancy_id_from_records target_user_id
                  match env.delegateResult "update_resume_records_with_fresh_video_from_applicants_triggered_by_admin_command" target_user_id with
                  | .ok _ =>
                      (evs0 ++ [Event.delegate "update_resume_records_with_fresh_video_from_applicants_triggered_by_admin_command" target_user_id [target_user_vacancy_id],
                                Event.userMsg ("Resume records updated with fresh videos from applicants for user " ++ target_user_id ++ ".")], none)
                  | .error e =>
                      (evs0 ++ [Event.delegate "update_resume_records_with_fresh_video_from_applicants_triggered_by_admin_command" target_user_id [target_user_vacancy_id]], some e)
                else
                  (evs0, some ("User " ++ target_user_id ++ " does not have enough vacancy data for resume analysis."))
              else
                (evs0, some ("User " ++ target_user_id ++ " not found in records."))
            else
              (evs0, some "Invalid command arguments.")
        | _ => (evs0, some "Invalid number of arguments.")

/-- `admin_update_resume_records_with_applicants_video_status_command`. -/
def admin_update_resume_records_with_applicants_video_status_command (env : Env) : List Event × Option String :=
  handlerWrap env
    "admin_update_resume_records_with_applicants_video_status_command: Failed to execute command: "
    "⚠️ Error admin_update_resume_records_with_applicants_video_status_command: "
    (admin_update_resume_records_with_applicants_video_status_body env)

/-- Body of `admin_recommend_resumes_command`: gated on
`is_vacany_data_enough_for_resume_analysis`; triggers recommendation and
confirms with a non-interpolated literal (the source string is not an
f-string, so the placeholder text is sent verbatim). -/
def admin_recommend_resumes_body (env : Env) : List Event × Option String :=
  match env.callerId with
  | .error e => ([], some e)
  | .ok bot_user_id =>
      let evs0 := [Event.logInfo ("admin_recommend_resumes_command: started. User_id: " ++ bot_user_id)]
      if env.ADMIN_ID = "" ∨ bot_user_id ≠ env.ADMIN_ID then
        (evs0 ++ [Event.userMsg FAIL_TO_IDENTIFY_USER_AS_ADMIN_TEXT,
                  Event.logError ("Unauthorized for " ++ bot_user_id)], none)
      else
        match env.args with
        | [target_user_id] =>
            if target_user_id ≠ "" then
              if is_user_in_records env target_user_id then
                if env.is_vacany_data_enough_for_resume_analysis target_user_id then
                  match env.delegateResult "recommend_resumes_triggered_by_admin_command" target_user_id with
                  | .ok _ =>
                      (evs0 ++ [Event.delegate "recommend_resumes_triggered_by_admin_command" target_user_id [],
                                Event.userMsg "Recommending resumes is triggered for user \x7btarget_user_id\x7d."], none)
                  | .error e =>
                      (evs0 ++ [Event.delegate "recommend_resumes_triggered_by_admin_command" target_user_id []], some e)
                else
                  (evs0, some ("User " ++ target_user_id ++ " does not have enough vacancy data for resume analysis."))
              else
                (evs0, some ("User " ++ target_user_id ++ " not found in records."))
            else
              (evs0, some "Invalid command arguments.")
        | _ => (evs0, some "Invalid number of arguments.")

/-- `admin_recommend_resumes_command`. -/
def admin_recommend_resumes_command (env : Env) : List Event × Option String :=
  handlerWrap env
    "admin_recommend_resumes_command: Failed to execute command: "
    "⚠️ Error admin_recommend_resumes_command: "
    (admin_recommend_resumes_body env)

/-- Body of `admin_send_message_command`: authorize, require at least two
arguments, parse the first as an integer chat id (converting the
`ValueError` of `int` into the invalid-arguments message), then relay the
remaining words; a transport failure echoes a failure line to the caller
and re-raises the transport error. -/
def admin_send_message_body (env : Env) : List Event × Option String :=
  match env.callerId with
  | .error e => ([], some e)
  | .ok bot_user_id =>
      let evs0 := [Event.logInfo ("admin_send_message_command triggered by user_id: " ++ bot_user_id)]
      if env.ADMIN_ID = "" ∨ bot_user_id ≠ env.ADMIN_ID then
        (evs0 ++ [Event.userMsg FAIL_TO_IDENTIFY_USER_AS_ADMIN_TEXT,
                  Event.logError ("Unauthorized for " ++ bot_user_id)], none)
      else
        match env.args with
        | target_user_id :: rest1 :: restTail =>
            let message_text := String.intercalate " " (rest1 :: restTail)
            match pyInt target_user_id with
            | .error _ => (evs0, some "Invalid command arguments.")
            | .ok target_user_id_int =>
                if env.appAvailable ∧ env.botAvailable then
                  match env.botSendResult target_user_id_int message_text with
                  | .ok _ =>
                      (evs0 ++ [Event.botSend target_user_id_int message_text,
                                Event.userMsg ("✅ Сообщение отправлено пользователю " ++ target_user_id ++ ":\n\x27" ++ message_text ++ "\x27"),
                                Event.logInfo ("Admin " ++ bot_user_id ++ " sent message to user " ++ target_user_id ++ ": " ++ message_text)], none)
                  | .error send_err =>
                      (evs0 ++ [Event.userMsg ("❌ Не удалось отправить сообщение пользователю " ++ target_user_id ++ ": " ++ send_err),
                                Event.logError ("Failed to send message to user " ++ target_user_id ++ ": " ++ send_err)], some send_err)
                else
                  (evs0, some "Application or bot instance not available")
        | _ => (evs0, some "Invalid number of arguments.")

/-- `admin_send_message_command`: its `except` block differs from the
shared one — it also sends the fixed technical-support text to the
calling chat before notifying the admin. -/
def admin_send_message_command (env : Env) : List Event × Option String :=
  match (admin_send_message_body env).2 with
  | none => ((admin_send_message_body env).1, none)
  | some e =>
      let evs1 := (admin_send_message_body env).1 ++
        [Event.logError ("Failed to execute admin_send_message_to_user command: " ++ e),
         Event.userMsg FAIL_TECHNICAL_SUPPORT_TEXT]
      if env.appAvailable then
        let report := "⚠️ Error executing admin_send_message_to_user command: " ++ e ++ "\nAdmin ID: " ++ callerOrUnknown env
        (evs1 ++ [Event.adminCall report] ++ (send_message_to_admin env report).1, none)
      else (evs1, none)

/-- The valid file extensions of `admin_pull_file_command`. -/
def valid_extensions : List String := [".log", ".json", ".mp4"]

/-- Body of `admin_pull_file_command`: authorize, require exactly one
argument, join it to the data root, validate the extension, check the
joined path exists, then open it and send it as a document; a transport
failure is re-raised as a `TelegramError`. -/
def admin_pull_file_body (env : Env) : List Event × Option String :=
  match env.callerId with
  | .error e => ([], some e)
  | .ok bot_user_id =>
      let evs0 := [Event.logInfo ("admin_pull_file_command: started. User_id: " ++ bot_user_id)]
      if env.ADMIN_ID = "" ∨ bot_user_id ≠ env.ADMIN_ID then
        (evs0 ++ [Event.userMsg FAIL_TO_IDENTIFY_USER_AS_ADMIN_TEXT,
                  Event.logError ("Unauthorized for " ++ bot_user_id)], none)
      else
        match env.args with
        | [file_relative_path] =>
            let data_dir := env.USERS_DATA_DIR
            let file_path := pathJoin data_dir file_relative_path
            let file_name := pathName file_path
            let file_extension := pathSuffix file_path
            if ¬ valid_extensions.contains file_extension then
              (evs0, some ("Invalid file extension.\nValid: " ++ String.intercalate ", " valid_extensions))
            else
              let evs1 := evs0 ++ [Event.fsCheck file_path]
              if ¬ fsHas env.fsFiles file_path then
                (evs1, some ("Invalid file relative path\x27" ++ file_relative_path ++ "\x27. File not found"))
              else
                if env.appAvailable ∧ env.botAvailable then
                  match env.docSendResult with
                  | .ok _ =>
                      (evs1 ++ [Event.fileOpen file_path,
                                Event.docSend env.effectiveChatId file_name,
                                Event.logInfo ("admin_pull_file_command: file \x27" ++ file_path ++ "\x27 sent to user " ++ bot_user_id)], none)
                  | .error send_err =>
                      (evs1 ++ [Event.fileOpen file_path],
                       some ("Failed to send file \x27" ++ file_path ++ "\x27: " ++ send_err))
                else
                  (evs1, some "Application or bot instance not available")
        | _ => (evs0, some "Invalid number of arguments.")

/-- `admin_pull_file_command`. -/
def admin_pull_file_command (env : Env) : List Event × Option String :=
  handlerWrap env
    "admin_pull_file_command: Failed to execute: "
    "⚠️ Error admin_pull_file_command: "
    (admin_pull_file_body env)

/-- A concrete environment for evaluating the handlers: admin `"1"`
calling as `"1"`, one target user `"7"` present in records with every
readiness predicate true, an available application and bot, a data root
containing one log file, and all external calls succeeding. -/
def baseEnv : Env where
  ADMIN_ID := "1"
  USERS_DATA_DIR := "/users_data"
  callerId := .ok "1"
  args := ["7"]
  appAvailable := true
  botAvailable := true
  effectiveChatId := "1"
  records := ["7"]
  is_vacancy_description_recieved := fun _ => true
  is_vacancy_sourcing_criterias_recieved := fun _ => true
  is_vacancy_selected := fun _ => true
  is_vacany_data_enough_for_resume_analysis := fun _ => true
  get_target_vacancy_id_from_records := fun _ => "v1"
  listUsersResult := .ok "[7]"
  fsFiles := ["/users_data/logs/a.log", "/secret/leak.log"]
  delegateResult := fun _ _ => .ok ()
  botSendResult := fun _ _ => .ok ()
  docSendResult := .ok ()

section Helpers

variable (env : Env) (p q t : String) (b : List Event × Option String)

/-! Compositional evaluation rules for the trace projections. -/

@[simp] lemma userMsgs_nil : userMsgs ([] : List Event) = [] := rfl

@[simp] lemma userMsgs_app (l1 l2 : List Event) :
    userMsgs (l1 ++ l2) = userMsgs l1 ++ userMsgs l2 := by simp [userMsgs]

@[simp] lemma userMsgs_logInfo (m : String) (l : List Event) :
    userMsgs (Event.logInfo m :: l) = userMsgs l := by simp [userMsgs]

@[simp] lemma userMsgs_logDebug (m : String) (l : List Event) :
    userMsgs (Event.logDebug m :: l) = userMsgs l := by simp [userMsgs]

@[simp] lemma userMsgs_logWarning (m : String) (l : List Event) :
    userMsgs (Event.logWarning m :: l) = userMsgs l := by simp [userMsgs]

@[simp] lemma userMsgs_logError (m : String) (l : List Event) :
    userMsgs (Event.logError m :: l) = userMsgs l := by simp [userMsgs]

@[simp] lemma userMsgs_userMsg (t : String) (l : List Event) :
    userMsgs (Event.userMsg t :: l) = t :: userMsgs l := by simp [userMsgs]

@[simp] lemma userMsgs_adminCall (t : String) (l : List Event) :
    userMsgs (Event.adminCall t :: l) = userMsgs l := by simp [userMsgs]

@[simp] lemma userMsgs_adminSend (c : Int) (t : String) (l : List Event) :
    userMsgs (Event.adminSend c t :: l) = userMsgs l := by simp [userMsgs]

@[simp] lemma userMsgs_botSend (c : Int) (t : String) (l : List Event) :
    userMsgs (Event.botSend c t :: l) = userMsgs l := by simp [userMsgs]

@[simp] lemma userMsgs_delegate (n t : String) (ex : List String) (l : List Event) :
    userMsgs (Event.delegate n t ex :: l) = userMsgs l := by simp [userMsgs]

@[simp] lemma userMsgs_fsCheck (p : String) (l : List Event) :
    userMsgs (Event.fsCheck p :: l) = userMsgs l := by simp [userMsgs]

@[simp] lemma userMsgs_fileOpen (p : String) (l : List Event) :
    userMsgs (Event.fileOpen p :: l) = userMsgs l := by simp [userMsgs]

@[simp] lemma userMsgs_docSend (c : String) (f : String) (l : List Event) :
    userMsgs (Event.docSend c f :: l) = userMsgs l := by simp [userMsgs]

@[simp] lemma adminCalls_nil : adminCalls ([] : List Event) = [] := rfl

@[simp] lemma adminCalls_app (l1 l2 : List Event) :
    adminCalls (l1 ++ l2) = adminCalls l1 ++ adminCalls l2 := by simp [adminCalls]

@[simp] lemma adminCalls_logInfo (m : String) (l : List Event) :
    adminCalls (Event.logInfo m :: l) = adminCalls l := by simp [adminCalls]

@[simp] lemma adminCalls_logDebug (m : String) (l : List Event) :
    adminCalls (Event.logDebug m :: l) = adminCalls l := by simp [adminCalls]

@[simp] lemma adminCalls_logWarning (m : String) (l : List Event) :
    adminCalls (Event.logWarning m :: l) = adminCalls l := by simp [adminCalls]

@[simp] lemma adminCalls_logError (m : String) (l : List Event) :
    adminCalls (Event.logError m :: l) = adminCalls l := by simp [adminCalls]

@[simp] lemma adminCalls_userMsg (t : String) (l : List Event) :
    adminCalls (Event.userMsg t :: l) = adminCalls l := by simp [adminCalls]

@[simp] lemma adminCalls_adminCall (t : String) (l : List Event) :
    adminCalls (Event.adminCall t :: l) = t :: adminCalls l := by simp [adminCalls]

@[simp] lemma adminCalls_adminSend (c : Int) (t : String) (l : List Event) :
    adminCalls (Event.adminSend c t :: l) = adminCalls l := by simp [adminCalls]

@[simp] lemma adminCalls_botSend (c : Int) (t : String) (l : List Event) :
    adminCalls (Event.botSend c t :: l) = adminCalls l := by simp [adminCalls]

@[simp] lemma adminCalls_delegate (n t : String) (ex : List String) (l : List Event) :
    adminCalls (Event.delegate n t ex :: l) = adminCalls l := by simp [adminCalls]

@[simp] lemma adminCalls_fsCheck (p : String) (l : List Event) :
    adminCalls (Event.fsCheck p :: l) = adminCalls l := by simp [adminCalls]

@[simp] lemma adminCalls_fileOpen (p : String) (l : List Event) :
    adminCalls (Event.fileOpen p :: l) = adminCalls l := by simp [adminCalls]

@[simp] lemma adminCalls_docSend (c : String) (f : String) (l : List Event) :
    adminCalls (Event.docSend c f :: l) = adminCalls l := by simp [adminCalls]

@[simp] lemma adminSends_nil : adminSends ([] : List Event) = [] := rfl

@[simp] lemma adminSends_app (l1 l2 : List Event) :
    adminSends (l1 ++ l2) = adminSends l1 ++ adminSends l2 := by simp [adminSends]

@[simp] lemma adminSends_logInfo (m : String) (l : List Event) :
    adminSends (Event.logInfo m :: l) = adminSends l := by simp [adminSends]

@[simp] lemma adminSends_logDebug (m : String) (l : List Event) :
    adminSends (Event.logDebug m :: l) = adminSends l := by simp [adminSends]

@[simp] lemma adminSends_logWarning (m : String) (l : List Event) :
    adminSends (Event.logWarning m :: l) = adminSends l := by simp [adminSends]

@[simp] lemma adminSends_logError (m : String) (l : List Event) :
    adminSends (Event.logError m :: l) = adminSends l := by simp [adminSends]

@[simp] lemma adminSends_userMsg (t : String) (l : List Event) :
    adminSends (Event.userMsg t :: l) = adminSends l := by simp [adminSends]

@[simp] lemma adminSends_adminCall (t : String) (l : List Event) :
    adminSends (Event.adminCall t :: l) = adminSends l := by simp [adminSends]

@[simp] lemma adminSends_adminSend (c : Int) (t : String) (l : List Event) :
    adminSends (Event.adminSend c t :: l) = (c, t) :: adminSends l := by simp [adminSends]

@[simp] lemma adminSends_botSend (c : Int) (t : String) (l : List Event) :
    adminSends (Event.botSend c t :: l) = adminSends l := by simp [adminSends]

@[simp] lemma adminSends_delegate (n t : String) (ex : List String) (l : List Event) :
    adminSends (Event.delegate n t ex :: l) = adminSends l := by simp [adminSends]

@[simp] lemma adminSends_fsCheck (p : String) (l : List Event) :
    adminSends (Event.fsCheck p :: l) = adminSends l := by simp [adminSends]

@[simp] lemma adminSends_fileOpen (p : String) (l : List Event) :
    adminSends (Event.fileOpen p :: l) = adminSends l := by simp [adminSends]

@[simp] lemma adminSends_docSend (c : String) (f : String) (l : List Event) :
    adminSends (Event.docSend c f :: l) = adminSends l := by simp [adminSends]

@[simp] lemma botSends_nil : botSends ([] : List Event) = [] := rfl

@[simp] lemma botSends_app (l1 l2 : List Event) :
    botSends (l1 ++ l2) = botSends l1 ++ botSends l2 := by simp [botSends]

@[simp] lemma botSends_logInfo (m : String) (l : List Event) :
    botSends (Event.logInfo m :: l) = botSends l := by simp [botSends]

@[simp] lemma botSends_logDebug (m : String) (l : List Event) :
    botSends (Event.logDebug m :: l) = botSends l := by simp [botSends]

@[simp] lemma botSends_logWarning (m : String) (l : List Event) :
    botSends (Event.logWarning m :: l) = botSends l := by simp [botSends]

@[simp] lemma botSends_logError (m : String) (l : List Event) :
    botSends (Event.logError m :: l) = botSends l := by simp [botSends]

@[simp] lemma botSends_userMsg (t : String) (l : List Event) :
    botSends (Event.userMsg t :: l) = botSends l := by simp [botSends]

@[simp] lemma botSends_adminCall (t : String) (l : List Event) :
    botSends (Event.adminCall t :: l) = botSends l := by simp [botSends]

@[simp] lemma botSends_adminSend (c : Int) (t : String) (l : List Event) :
    botSends (Event.adminSend c t :: l) = botSends l := by simp [botSends]

@[simp] lemma botSends_botSend (c : Int) (t : String) (l : List Event) :
    botSends (Event.botSend c t :: l) = (c, t) :: botSends l := by simp [botSends]

@[simp] lemma botSends_delegate (n t : String) (ex : List String) (l : List Event) :
    botSends (Event.delegate n t ex :: l) = botSends l := by simp [botSends]

@[simp] lemma botSends_fsCheck (p : String) (l : List Event) :
    botSends (Event.fsCheck p :: l) = botSends l := by simp [botSends]

@[simp] lemma botSends_fileOpen (p : String) (l : List Event) :
    botSends (Event.fileOpen p :: l) = botSends l := by simp [botSends]

@[simp] lemma botSends_docSend (c : String) (f : String) (l : List Event) :
    botSends (Event.docSend c f :: l) = botSends l := by simp [botSends]

@[simp] lemma delegatesOf_nil : delegatesOf ([] : List Event) = [] := rfl

@[simp] lemma delegatesOf_app (l1 l2 : List Event) :
    delegatesOf (l1 ++ l2) = delegatesOf l1 ++ delegatesOf l2 := by simp [delegatesOf]

@[simp] lemma delegatesOf_logInfo (m : String) (l : List Event) :
    delegatesOf (Event.logInfo m :: l) = delegatesOf l := by simp [delegatesOf]

@[simp] lemma delegatesOf_logDebug (m : String) (l : List Event) :
    delegatesOf (Event.logDebug m :: l) = delegatesOf l := by simp [delegatesOf]

@[simp] lemma delegatesOf_logWarning (m : String) (l : List Event) :
    delegatesOf (Event.logWarning m :: l) = delegatesOf l := by simp [delegatesOf]

@[simp] lemma delegatesOf_logError (m : String) (l : List Event) :
    delegatesOf (Event.logError m :: l) = delegatesOf l := by simp [delegatesOf]

@[simp] lemma delegatesOf_userMsg (t : String) (l : List Event) :
    delegatesOf (Event.userMsg t :: l) = delegatesOf l := by simp [delegatesOf]

@[simp] lemma delegatesOf_adminCall (t : String) (l : List Event) :
    delegatesOf (Event.adminCall t :: l) = delegatesOf l := by simp [delegatesOf]

@[simp] lemma delegatesOf_adminSend (c : Int) (t : String) (l : List Event) :
    delegatesOf (Event.adminSend c t :: l) = delegatesOf l := by simp [delegatesOf]

@[simp] lemma delegatesOf_botSend (c : Int) (t : String) (l : List Event) :
    delegatesOf (Event.botSend c t :: l) = delegatesOf l := by simp [delegatesOf]

@[simp] lemma delegatesOf_delegate (n t : String) (ex : List String) (l : List Event) :
    delegatesOf (Event.delegate n t ex :: l) = (n, t) :: delegatesOf l := by simp [delegatesOf]

@[simp] lemma delegatesOf_fsCheck (p : String) (l : List Event) :
    delegatesOf (Event.fsCheck p :: l) = delegatesOf l := by simp [delegatesOf]

@[simp] lemma delegatesOf_fileOpen (p : String) (l : List Event) :
    delegatesOf (Event.fileOpen p :: l) = delegatesOf l := by simp [delegatesOf]

@[simp] lemma delegatesOf_docSend (c : String) (f : String) (l : List Event) :
    delegatesOf (Event.docSend c f :: l) = delegatesOf l := by simp [delegatesOf]

@[simp] lemma fsChecks_nil : fsChecks ([] : List Event) = [] := rfl

@[simp] lemma fsChecks_app (l1 l2 : List Event) :
    fsChecks (l1 ++ l2) = fsChecks l1 ++ fsChecks l2 := by simp [fsChecks]

@[simp] lemma fsChecks_logInfo (m : String) (l : List Event) :
    fsChecks (Event.logInfo m :: l) = fsChecks l := by simp [fsChecks]

@[simp] lemma fsChecks_logDebug (m : String) (l : List Event) :
    fsChecks (Event.logDebug m :: l) = fsChecks l := by simp [fsChecks]

@[simp] lemma fsChecks_logWarning (m : String) (l : List Event) :
    fsChecks (Event.logWarning m :: l) = fsChecks l := by simp [fsChecks]

@[simp] lemma fsChecks_logError (m : String) (l : List Event) :
    fsChecks (Event.logError m :: l) = fsChecks l := by simp [fsChecks]

@[simp] lemma fsChecks_userMsg (t : String) (l : List Event) :
    fsChecks (Event.userMsg t :: l) = fsChecks l := by simp [fsChecks]

@[simp] lemma fsChecks_adminCall (t : String) (l : List Event) :
    fsChecks (Event.adminCall t :: l) = fsChecks l := by simp [fsChecks]

@[simp] lemma fsChecks_adminSend (c : Int) (t : String) (l : List Event) :
    fsChecks (Event.adminSend c t :: l) = fsChecks l := by simp [fsChecks]

@[simp] lemma fsChecks_botSend (c : Int) (t : String) (l : List Event) :
    fsChecks (Event.botSend c t :: l) = fsChecks l := by simp [fsChecks]

@[simp] lemma fsChecks_delegate (n t : String) (ex : List String) (l : List Event) :
    fsChecks (Event.delegate n t ex :: l) = fsChecks l := by simp [fsChecks]

@[simp] lemma fsChecks_fsCheck (p : String) (l : List Event) :
    fsChecks (Event.fsCheck p :: l) = p :: fsChecks l := by simp [fsChecks]

@[simp] lemma fsChecks_fileOpen (p : String) (l : List Event) :
    fsChecks (Event.fileOpen p :: l) = fsChecks l := by simp [fsChecks]

@[simp] lemma fsChecks_docSend (c : String) (f : String) (l : List Event) :
    fsChecks (Event.docSend c f :: l) = fsChecks l := by simp [fsChecks]

@[simp] lemma fileOpens_nil : fileOpens ([] : List Event) = [] := rfl

@[simp] lemma fileOpens_app (l1 l2 : List Event) :
    fileOpens (l1 ++ l2) = fileOpens l1 ++ fileOpens l2 := by simp [fileOpens]

@[simp] lemma fileOpens_logInfo (m : String) (l : List Event) :
    fileOpens (Event.logInfo m :: l) = fileOpens l := by simp [fileOpens]

@[simp] lemma fileOpens_logDebug (m : String) (l : List Event) :
    fileOpens (Event.logDebug m :: l) = fileOpens l := by simp [fileOpens]

@[simp] lemma fileOpens_logWarning (m : String) (l : List Event) :
    fileOpens (Event.logWarning m :: l) = fileOpens l := by simp [fileOpens]

@[simp] lemma fileOpens_logError (m : String) (l : List Event) :
    fileOpens (Event.logError m :: l) = fileOpens l := by simp [fileOpens]

@[simp] lemma fileOpens_userMsg (t : String) (l : List Event) :
    fileOpens (Event.userMsg t :: l) = fileOpens l := by simp [fileOpens]

@[simp] lemma fileOpens_adminCall (t : String) (l : List Event) :
    fileOpens (Event.adminCall t :: l) = fileOpens l := by simp [fileOpens]

@[simp] lemma fileOpens_adminSend (c : Int) (t : String) (l : List Event) :
    fileOpens (Event.adminSend c t :: l) = fileOpens l := by simp [fileOpens]

@[simp] lemma fileOpens_botSend (c : Int) (t : String) (l : List Event) :
    fileOpens (Event.botSend c t :: l) = fileOpens l := by simp [fileOpens]

@[simp] lemma fileOpens_delegate (n t : String) (ex : List String) (l : List Event) :
    fileOpens (Event.delegate n t ex :: l) = fileOpens l := by simp [fileOpens]

@[simp] lemma fileOpens_fsCheck (p : String) (l : List Event) :
    fileOpens (Event.fsCheck p :: l) = fileOpens l := by simp [fileOpens]

@[simp] lemma fileOpens_fileOpen (p : String) (l : List Event) :
    fileOpens (Event.fileOpen p :: l) = p :: fileOpens l := by simp [fileOpens]

@[simp] lemma fileOpens_docSend (c : String) (f : String) (l : List Event) :
    fileOpens (Event.docSend c f :: l) = fileOpens l := by simp [fileOpens]

@[simp] lemma docSends_nil : docSends ([] : List Event) = [] := rfl

@[simp] lemma docSends_app (l1 l2 : List Event) :
    docSends (l1 ++ l2) = docSends l1 ++ docSends l2 := by simp [docSends]

@[simp] lemma docSends_logInfo (m : String) (l : List Event) :
    docSends (Event.logInfo m :: l) = docSends l := by simp [docSends]

@[simp] lemma docSends_logDebug (m : String) (l : List Event) :
    docSends (Event.logDebug m :: l) = docSends l := by simp [docSends]

@[simp] lemma docSends_logWarning (m : String) (l : List Event) :
    docSends (Event.logWarning m :: l) = docSends l := by simp [docSends]

@[simp] lemma docSends_logError (m : String) (l : List Event) :
    docSends (Event.logError m :: l) = docSends l := by simp [docSends]

@[simp] lemma docSends_userMsg (t : String) (l : List Event) :
    docSends (Event.userMsg t :: l) = docSends l := by simp [docSends]

@[simp] lemma docSends_adminCall (t : String) (l : List Event) :
    docSends (Event.adminCall t :: l) = docSends l := by simp [docSends]

@[simp] lemma docSends_adminSend (c : Int) (t : String) (l : List Event) :
    docSends (Event.adminSend c t :: l) = docSends l := by simp [docSends]

@[simp] lemma docSends_botSend (c : Int) (t : String) (l : List Event) :
    docSends (Event.botSend c t :: l) = docSends l := by simp [docSends]

@[simp] lemma docSends_delegate (n t : String) (ex : List String) (l : List Event) :
    docSends (Event.delegate n t ex :: l) = docSends l := by simp [docSends]

@[simp] lemma docSends_fsCheck (p : String) (l : List Event) :
    docSends (Event.fsCheck p :: l) = docSends l := by simp [docSends]

@[simp] lemma docSends_fileOpen (p : String) (l : List Event) :
    docSends (Event.fileOpen p :: l) = docSends l := by simp [docSends]

@[simp] lemma docSends_docSend (c : String) (f : String) (l : List Event) :
    docSends (Event.docSend c f :: l) = (c, f) :: docSends l := by simp [docSends]


/-- `send_message_to_admin` always returns without raising, and its trace
is one of three shapes: a single error log, a single warning log, or an
admin-channel send followed by a debug log. -/
lemma smta_cases :
    (∃ m, send_message_to_admin env t = ([Event.logError m], none)) ∨
    (∃ m, send_message_to_admin env t = ([Event.logWarning m], none)) ∨
    (∃ c m, send_message_to_admin env t = ([Event.adminSend c t, Event.logDebug m], none)) := by
  unfold send_message_to_admin
  by_cases h1 : env.ADMIN_ID = ""
  · rw [if_pos h1]
    exact Or.inl ⟨_, rfl⟩
  · rw [if_neg h1]
    by_cases h2 : env.appAvailable = true ∧ env.botAvailable = true
    · rw [if_pos h2]
      rcases hp : pyInt env.ADMIN_ID with e | cid
      · exact Or.inl ⟨"send_message_to_admin: Failed to send admin notification: " ++ e, by simp⟩
      · rcases hb : env.botSendResult cid t with e | u
        · exact Or.inl ⟨"send_message_to_admin: Failed to send admin notification: " ++ e, by simp [hb]⟩
        · exact Or.inr (Or.inr ⟨cid,
            "send_message_to_admin: Admin notification sent successfully to admin_id: " ++ env.ADMIN_ID,
            by simp [hb]⟩)
    · rw [if_neg h2]
      exact Or.inr (Or.inl ⟨_, rfl⟩)

@[simp] lemma smta_snd : (send_message_to_admin env t).2 = none := by
  rcases smta_cases env t with ⟨m, hs⟩ | ⟨m, hs⟩ | ⟨c, m, hs⟩ <;> rw [hs]

@[simp] lemma userMsgs_smta : userMsgs (send_message_to_admin env t).1 = [] := by
  rcases smta_cases env t with ⟨m, hs⟩ | ⟨m, hs⟩ | ⟨c, m, hs⟩ <;> rw [hs] <;> rfl

@[simp] lemma adminCalls_smta : adminCalls (send_message_to_admin env t).1 = [] := by
  rcases smta_cases env t with ⟨m, hs⟩ | ⟨m, hs⟩ | ⟨c, m, hs⟩ <;> rw [hs] <;> rfl

@[simp] lemma delegatesOf_smta : delegatesOf (send_message_to_admin env t).1 = [] := by
  rcases smta_cases env t with ⟨m, hs⟩ | ⟨m, hs⟩ | ⟨c, m, hs⟩ <;> rw [hs] <;> rfl

@[simp] lemma botSends_smta : botSends (send_message_to_admin env t).1 = [] := by
  rcases smta_cases env t with ⟨m, hs⟩ | ⟨m, hs⟩ | ⟨c, m, hs⟩ <;> rw [hs] <;> rfl

@[simp] lemma fsChecks_smta : fsChecks (send_message_to_admin env t).1 = [] := by
  rcases smta_cases env t with ⟨m, hs⟩ | ⟨m, hs⟩ | ⟨c, m, hs⟩ <;> rw [hs] <;> rfl

@[simp] lemma fileOpens_smta : fileOpens (send_message_to_admin env t).1 = [] := by
  rcases smta_cases env t with ⟨m, hs⟩ | ⟨m, hs⟩ | ⟨c, m, hs⟩ <;> rw [hs] <;> rfl

@[simp] lemma docSends_smta : docSends (send_message_to_admin env t).1 = [] := by
  rcases smta_cases env t with ⟨m, hs⟩ | ⟨m, hs⟩ | ⟨c, m, hs⟩ <;> rw [hs] <;> rfl

@[simp] lemma handlerWrap_snd : (handlerWrap env p q b).2 = none := by
  unfold handlerWrap
  rcases hb : b.2 with _ | e
  · rfl
  · by_cases h : env.appAvailable <;> simp [h]

@[simp] lemma userMsgs_handlerWrap : userMsgs (handlerWrap env p q b).1 = userMsgs b.1 := by
  unfold handlerWrap
  rcases hb : b.2 with _ | e
  · rfl
  · by_cases h : env.appAvailable
    · rcases smta_cases env (q ++ e ++ "\nAdmin ID: " ++ callerOrUnknown env) with
        ⟨m, hs⟩ | ⟨m, hs⟩ | ⟨c, m, hs⟩ <;> simp [h, hs, userMsgs]
    · simp [h, userMsgs]

@[simp] lemma delegatesOf_handlerWrap : delegatesOf (handlerWrap env p q b).1 = delegatesOf b.1 := by
  unfold handlerWrap
  rcases hb : b.2 with _ | e
  · rfl
  · by_cases h : env.appAvailable
    · rcases smta_cases env (q ++ e ++ "\nAdmin ID: " ++ callerOrUnknown env) with
        ⟨m, hs⟩ | ⟨m, hs⟩ | ⟨c, m, hs⟩ <;> simp [h, hs, delegatesOf]
    · simp [h, delegatesOf]

@[simp] lemma botSends_handlerWrap : botSends (handlerWrap env p q b).1 = botSends b.1 := by
  unfold handlerWrap
  rcases hb : b.2 with _ | e
  · rfl
  · by_cases h : env.appAvailable
    · rcases smta_cases env (q ++ e ++ "\nAdmin ID: " ++ callerOrUnknown env) with
        ⟨m, hs⟩ | ⟨m, hs⟩ | ⟨c, m, hs⟩ <;> simp [h, hs, botSends]
    · simp [h, botSends]

@[simp] lemma fsChecks_handlerWrap : fsChecks (handlerWrap env p q b).1 = fsChecks b.1 := by
  unfold handlerWrap
  rcases hb : b.2 with _ | e
  · rfl
  · by_cases h : env.appAvailable
    · rcases smta_cases env (q ++ e ++ "\nAdmin ID: " ++ callerOrUnknown env) with
        ⟨m, hs⟩ | ⟨m, hs⟩ | ⟨c, m, hs⟩ <;> simp [h, hs, fsChecks]
    · simp [h, fsChecks]

@[simp] lemma fileOpens_handlerWrap : fileOpens (handlerWrap env p q b).1 = fileOpens b.1 := by
  unfold handlerWrap
  rcases hb : b.2 with _ | e
  · rfl
  · by_cases h : env.appAvailable
    · rcases smta_cases env (q ++ e ++ "\nAdmin ID: " ++ callerOrUnknown env) with
        ⟨m, hs⟩ | ⟨m, hs⟩ | ⟨c, m, hs⟩ <;> simp [h, hs, fileOpens]
    · simp [h, fileOpens]

@[simp] lemma docSends_handlerWrap : docSends (handlerWrap env p q b).1 = docSends b.1 := by
  unfold handlerWrap
  rcases hb : b.2 with _ | e
  · rfl
  · by_cases h : env.appAvailable
    · rcases smta_cases env (q ++ e ++ "\nAdmin ID: " ++ callerOrUnknown env) with
        ⟨m, hs⟩ | ⟨m, hs⟩ | ⟨c, m, hs⟩ <;> simp [h, hs, docSends]
    · simp [h, docSends]

lemma adminCalls_handlerWrap_none (hb : b.2 = none) :
    adminCalls (handlerWrap env p q b).1 = adminCalls b.1 := by
  unfold handlerWrap; simp [hb]

lemma adminCalls_handlerWrap_some {e : String} (hb : b.2 = some e)
    (happ : env.appAvailable = true) :
    adminCalls (handlerWrap env p q b).1 =
      adminCalls b.1 ++ [q ++ e ++ "\nAdmin ID: " ++ callerOrUnknown env] := by
  unfold handlerWrap
  rcases smta_cases env (q ++ e ++ "\nAdmin ID: " ++ callerOrUnknown env) with
      ⟨m, hs⟩ | ⟨m, hs⟩ | ⟨c, m, hs⟩ <;> simp [hb, happ, hs, adminCalls]

lemma adminCalls_handlerWrap_noapp {e : String} (hb : b.2 = some e)
    (happ : env.appAvailable = false) :
    adminCalls (handlerWrap env p q b).1 = adminCalls b.1 := by
  unfold handlerWrap; simp [hb, happ, adminCalls]

end Helpers

/-- C1: for every command handler, a caller whose resolved identity
string differs from the configured `ADMIN_ID` (in particular whenever
`ADMIN_ID` is unset or empty and the caller id is nonempty) receives
exactly the fixed unauthorized message and the handler returns without
any delegate call, direct bot send, or document send. -/
theorem c1_unauthorized_fail_closed (env : Env) (c : String)
    (hc : env.callerId = .ok c) (hne : c ≠ env.ADMIN_ID) :
    (userMsgs (admin_get_users_command env).1 = [FAIL_TO_IDENTIFY_USER_AS_ADMIN_TEXT] ∧
      delegatesOf (admin_get_users_command env).1 = []) ∧
    (userMsgs (admin_get_user_status_command env).1 = [FAIL_TO_IDENTIFY_USER_AS_ADMIN_TEXT] ∧
      delegatesOf (admin_get_user_status_command env).1 = []) ∧
    (userMsgs (admin_anazlyze_sourcing_criterais_command env).1 = [FAIL_TO_IDENTIFY_USER_AS_ADMIN_TEXT] ∧
      delegatesOf (admin_anazlyze_sourcing_criterais_command env).1 = []) ∧
    (userMsgs (admin_send_sourcing_criterais_to_user_command env).1 = [FAIL_TO_IDENTIFY_USER_AS_ADMIN_TEXT] ∧
      delegatesOf (admin_send_sourcing_criterais_to_user_command env).1 = []) ∧
    (userMsgs (admin_update_negotiations_command env).1 = [FAIL_TO_IDENTIFY_USER_AS_ADMIN_TEXT] ∧
      delegatesOf (admin_update_negotiations_command env).1 = []) ∧
    (userMsgs (admin_get_fresh_resumes_command env).1 = [FAIL_TO_IDENTIFY_USER_AS_ADMIN_TEXT] ∧
      delegatesOf (admin_get_fresh_resumes_command env).1 = []) ∧
    (userMsgs (admin_anazlyze_resumes_command env).1 = [FAIL_TO_IDENTIFY_USER_AS_ADMIN_TEXT] ∧
      delegatesOf (admin_anazlyze_resumes_command env).1 = []) ∧
    (userMsgs (admin_update_resume_records_with_applicants_video_status_command env).1 = [FAIL_TO_IDENTIFY_USER_AS_ADMIN_TEXT] ∧
      delegatesOf (admin_update_resume_records_with_applicants_video_status_command env).1 = []) ∧
    (userMsgs (admin_recommend_resumes_command env).1 = [FAIL_TO_IDENTIFY_USER_AS_ADMIN_TEXT] ∧
      delegatesOf (admin_recommend_resumes_command env).1 = []) ∧
    (userMsgs (admin_send_message_command env).1 = [FAIL_TO_IDENTIFY_USER_AS_ADMIN_TEXT] ∧
      delegatesOf (admin_send_message_command env).1 = [] ∧
      botSends (admin_send_message_command env).1 = []) ∧
    (userMsgs (admin_pull_file_command env).1 = [FAIL_TO_IDENTIFY_USER_AS_ADMIN_TEXT] ∧
      delegatesOf (admin_pull_file_command env).1 = [] ∧
      fileOpens (admin_pull_file_command env).1 = [] ∧
      docSends (admin_pull_file_command env).1 = []) := by
  refine ⟨⟨?_, ?_⟩, ⟨?_, ?_⟩, ⟨?_, ?_⟩, ⟨?_, ?_⟩, ⟨?_, ?_⟩, ⟨?_, ?_⟩, ⟨?_, ?_⟩, ⟨?_, ?_⟩,
    ⟨?_, ?_⟩, ⟨?_, ?_, ?_⟩, ⟨?_, ?_, ?_, ?_⟩⟩ <;>
    (simp [admin_get_users_command, admin_get_users_body,
      admin_get_user_status_command, admin_get_user_status_body,
      admin_anazlyze_sourcing_criterais_command, admin_anazlyze_sourcing_criterais_body,
      admin_send_sourcing_criterais_to_user_command, admin_send_sourcing_criterais_to_user_body,
      admin_update_negotiations_command, admin_update_negotiations_body,
      admin_get_fresh_resumes_command, admin_get_fresh_resumes_body,
      admin_anazlyze_resumes_command, admin_anazlyze_resumes_body,
      admin_update_resume_records_with_applicants_video_status_command,
      admin_update_resume_records_with_applicants_video_status_body,
      admin_recommend_resumes_command, admin_recommend_resumes_body,
      admin_send_message_command, admin_send_message_body,
      admin_pull_file_command, admin_pull_file_body,
      hc, hne];
     try simp [userMsgs, delegatesOf, botSends, fileOpens, docSends])

/-- Witness for C1: caller `"2"` while the configured admin is `"1"`. -/
theorem c1_witness :
    ({ baseEnv with callerId := .ok "2" } : Env).callerId = .ok "2" ∧
    ("2" : String) ≠ ({ baseEnv with callerId := .ok "2" } : Env).ADMIN_ID ∧
    userMsgs (admin_get_fresh_resumes_command { baseEnv with callerId := .ok "2" }).1 =
      [FAIL_TO_IDENTIFY_USER_AS_ADMIN_TEXT] :=
  ⟨rfl, by decide,
    (c1_unauthorized_fail_closed { baseEnv with callerId := .ok "2" } "2" rfl (by decide)).2.2.2.2.2.1.1⟩

/-- C3: an admin invocation of the pull-file command whose single
argument resolves to a path with an extension outside
`{.log, .json, .mp4}` raises the invalid-extension validation error
before any filesystem existence check or open: the trace contains no
existence check, no file open and no document send. -/
theorem c3_invalid_extension_no_fs_access (env : Env) (a p : String)
    (hc : env.callerId = .ok a) (ha : env.ADMIN_ID = a) (ha0 : a ≠ "")
    (hargs : env.args = [p])
    (hext : pathSuffix (pathJoin env.USERS_DATA_DIR p) ∉ valid_extensions) :
    fsChecks (admin_pull_file_command env).1 = [] ∧
    fileOpens (admin_pull_file_command env).1 = [] ∧
    docSends (admin_pull_file_command env).1 = [] ∧
    (admin_pull_file_body env).2 =
      some ("Invalid file extension.\nValid: " ++ String.intercalate ", " valid_extensions) := by
  have hb : admin_pull_file_body env =
      ([Event.logInfo ("admin_pull_file_command: started. User_id: " ++ a)],
        some ("Invalid file extension.\nValid: " ++ String.intercalate ", " valid_extensions)) := by
    simp [admin_pull_file_body, hc, ha, ha0, hargs, hext]
  refine ⟨?_, ?_, ?_, ?_⟩ <;>
    (simp [admin_pull_file_command, hb]; try simp [fsChecks, fileOpens, docSends])

/-- Witness for C3: the spec scenario `admin_pull_file logs/x.exe` by the
admin — the validation error is raised and the filesystem is untouched. -/
theorem c3_witness :
    pathSuffix (pathJoin ({ baseEnv with args := ["logs/x.exe"] } : Env).USERS_DATA_DIR "logs/x.exe") ∉
      valid_extensions ∧
    fsChecks (admin_pull_file_command { baseEnv with args := ["logs/x.exe"] }).1 = [] ∧
    fileOpens (admin_pull_file_command { baseEnv with args := ["logs/x.exe"] }).1 = [] :=
  ⟨by decide,
    (c3_invalid_extension_no_fs_access { baseEnv with args := ["logs/x.exe"] } "1" "logs/x.exe"
      rfl rfl (by decide) rfl (by decide)).1,
    (c3_invalid_extension_no_fs_access { baseEnv with args := ["logs/x.exe"] } "1" "logs/x.exe"
      rfl rfl (by decide) rfl (by decide)).2.1⟩

/-- C2 is false as stated: with data root `/users_data` and an existing
file `/secret/leak.log`, the admin invocation of the pull-file command
with the single argument `../secret/leak.log` resolves to a path outside
the data root, yet the command opens the file and sends its contents,
raises nothing and reports no error — it silently succeeds for a path
outside the data root. -/
theorem c2_counterexample :
    isUnderRoot "/users_data" (pathJoin "/users_data" "../secret/leak.log") = false ∧
    fileOpens (admin_pull_file_command { baseEnv with args := ["../secret/leak.log"] }).1 =
      ["/users_data/../secret/leak.log"] ∧
    docSends (admin_pull_file_command { baseEnv with args := ["../secret/leak.log"] }).1 =
      [("1", "leak.log")] ∧
    (admin_pull_file_body { baseEnv with args := ["../secret/leak.log"] }).2 = none ∧
    adminCalls (admin_pull_file_command { baseEnv with args := ["../secret/leak.log"] }).1 = [] := by
  refine ⟨by decide, ?_, ?_, by decide, ?_⟩ <;> decide

/-- C2 amended: the pull-file command checks only the extension and the
existence of the joined path — a nonexistent resolved path (with a valid
extension) is reported as not-found and no file is opened or sent, but
whether the path lies under the data root is never checked (see
`c2_counterexample`). -/
theorem c2_nonexistent_reported_not_found (env : Env) (a p : String)
    (hc : env.callerId = .ok a) (ha : env.ADMIN_ID = a) (ha0 : a ≠ "")
    (hargs : env.args = [p])
    (hext : pathSuffix (pathJoin env.USERS_DATA_DIR p) ∈ valid_extensions)
    (hmiss : fsHas env.fsFiles (pathJoin env.USERS_DATA_DIR p) = false)
    (happ : env.appAvailable = true) :
    fileOpens (admin_pull_file_command env).1 = [] ∧
    docSends (admin_pull_file_command env).1 = [] ∧
    (admin_pull_file_body env).2 =
      some ("Invalid file relative path\x27" ++ p ++ "\x27. File not found") ∧
    adminCalls (admin_pull_file_command env).1 =
      ["⚠️ Error admin_pull_file_command: " ++
        ("Invalid file relative path\x27" ++ p ++ "\x27. File not found") ++
        "\nAdmin ID: " ++ a] := by
  have hb : admin_pull_file_body env =
      ([Event.logInfo ("admin_pull_file_command: started. User_id: " ++ a),
        Event.fsCheck (pathJoin env.USERS_DATA_DIR p)],
        some ("Invalid file relative path\x27" ++ p ++ "\x27. File not found")) := by
    simp [admin_pull_file_body, hc, ha, ha0, hargs, hext, hmiss]
  refine ⟨?_, ?_, ?_, ?_⟩
  · simp [admin_pull_file_command, hb]; try simp [fileOpens]
  · simp [admin_pull_file_command, hb]; try simp [docSends]
  · simp [hb]
  · rw [admin_pull_file_command,
      adminCalls_handlerWrap_some env _ _ (admin_pull_file_body env) (by rw [hb]) happ]
    rw [hb]
    simp [adminCalls, callerOrUnknown, hc]

/-- Witness for C2 (amended): pulling `logs/missing.log`, absent from the
filesystem, yields the not-found report and no file open. -/
theorem c2_witness :
    fileOpens (admin_pull_file_command { baseEnv with args := ["logs/missing.log"] }).1 = [] ∧
    (admin_pull_file_body { baseEnv with args := ["logs/missing.log"] }).2 =
      some ("Invalid file relative path\x27" ++ "logs/missing.log" ++ "\x27. File not found") :=
  ⟨(c2_nonexistent_reported_not_found { baseEnv with args := ["logs/missing.log"] } "1" "logs/missing.log"
      rfl rfl (by decide) rfl (by decide) (by decide) rfl).1,
    (c2_nonexistent_reported_not_found { baseEnv with args := ["logs/missing.log"] } "1" "logs/missing.log"
      rfl rfl (by decide) rfl (by decide) (by decide) rfl).2.2.1⟩

/-- C4: for each readiness-gated command, invoked by the admin with
exactly one argument naming a user present in records, the delegate is
called if and only if the corresponding readiness predicate holds for the
target user — the trace's delegate calls are exactly one call of the
command's pipeline operation when the predicate is true and none when it
is false. -/
theorem c4_readiness_gate_iff (env : Env) (a u : String)
    (hc : env.callerId = .ok a) (ha : env.ADMIN_ID = a) (ha0 : a ≠ "")
    (hargs : env.args = [u]) (hu : u ≠ "") (hrec : u ∈ env.records) :
    delegatesOf (admin_anazlyze_sourcing_criterais_command env).1 =
      (if env.is_vacancy_description_recieved u then
        [("define_sourcing_criterias_triggered_by_admin_command", u)] else []) ∧
    delegatesOf (admin_send_sourcing_criterais_to_user_command env).1 =
      (if env.is_vacancy_sourcing_criterias_recieved u then
        [("send_to_user_sourcing_criterias_triggered_by_admin_command", u)] else []) ∧
    delegatesOf (admin_update_negotiations_command env).1 =
      (if env.is_vacancy_selected u then
        [("source_negotiations_triggered_by_admin_command", u)] else []) ∧
    delegatesOf (admin_get_fresh_resumes_command env).1 =
      (if env.is_vacany_data_enough_for_resume_analysis u then
        [("source_resumes_triggered_by_admin_command", u)] else []) ∧
    delegatesOf (admin_anazlyze_resumes_command env).1 =
      (if env.is_vacany_data_enough_for_resume_analysis u then
        [("analyze_resume_triggered_by_admin_command", u)] else []) ∧
    delegatesOf (admin_update_resume_records_with_applicants_video_status_command env).1 =
      (if env.is_vacany_data_enough_for_resume_analysis u then
        [("update_resume_records_with_fresh_video_from_applicants_triggered_by_admin_command", u)] else []) ∧
    delegatesOf (admin_recommend_resumes_command env).1 =
      (if env.is_vacany_data_enough_for_resume_analysis u then
        [("recommend_resumes_triggered_by_admin_command", u)] else []) := by
  refine ⟨?_, ?_, ?_, ?_, ?_, ?_, ?_⟩
  · by_cases hp : env.is_vacancy_description_recieved u
    · cases hd : env.delegateResult "define_sourcing_criterias_triggered_by_admin_command" u <;>
        (simp [admin_anazlyze_sourcing_criterais_command, admin_anazlyze_sourcing_criterais_body,
          is_user_in_records, hc, ha, ha0, hargs, hu, hrec, hp, hd]; try simp [delegatesOf])
    · simp [admin_anazlyze_sourcing_criterais_command, admin_anazlyze_sourcing_criterais_body,
        is_user_in_records, hc, ha, ha0, hargs, hu, hrec, hp]
      try simp [delegatesOf]
  · by_cases hp : env.is_vacancy_sourcing_criterias_recieved u
    · cases hd : env.delegateResult "send_to_user_sourcing_criterias_triggered_by_admin_command" u <;>
        (simp [admin_send_sourcing_criterais_to_user_command, admin_send_sourcing_criterais_to_user_body,
          is_user_in_records, hc, ha, ha0, hargs, hu, hrec, hp, hd]; try simp [delegatesOf])
    · simp [admin_send_sourcing_criterais_to_user_command, admin_send_sourcing_criterais_to_user_body,
        is_user_in_records, hc, ha, ha0, hargs, hu, hrec, hp]
      try simp [delegatesOf]
  · by_cases hp : env.is_vacancy_selected u
    · cases hd : env.delegateResult "source_negotiations_triggered_by_admin_command" u <;>
        (simp [admin_update_negotiations_command, admin_update_negotiations_body,
          is_user_in_records, hc, ha, ha0, hargs, hu, hrec, hp, hd]; try simp [delegatesOf])
    · simp [admin_update_negotiations_command, admin_update_negotiations_body,
        is_user_in_records, hc, ha, ha0, hargs, hu, hrec, hp]
      try simp [delegatesOf]
  · by_cases hp : env.is_vacany_data_enough_for_resume_analysis u
    · cases hd : env.delegateResult "source_resumes_triggered_by_admin_command" u <;>
        (simp [admin_get_fresh_resumes_command, admin_get_fresh_resumes_body,
          is_user_in_records, hc, ha, ha0, hargs, hu, hrec, hp, hd]; try simp [delegatesOf])
    · simp [admin_get_fresh_resumes_command, admin_get_fresh_resumes_body,
        is_user_in_records, hc, ha, ha0, hargs, hu, hrec, hp]
      try simp [delegatesOf]
  · by_cases hp : env.is_vacany_data_enough_for_resume_analysis u
    · cases hd : env.delegateResult "analyze_resume_triggered_by_admin_command" u <;>
        (simp [admin_anazlyze_resumes_command, admin_anazlyze_resumes_body,
          is_user_in_records, hc, ha, ha0, hargs, hu, hrec, hp, hd]; try simp [delegatesOf])
    · simp [admin_anazlyze_resumes_command, admin_anazlyze_resumes_body,
        is_user_in_records, hc, ha, ha0, hargs, hu, hrec, hp]
      try simp [delegatesOf]
  · by_cases hp : env.is_vacany_data_enough_for_resume_analysis u
    · cases hd : env.delegateResult "update_resume_records_with_fresh_video_from_applicants_triggered_by_admin_command" u <;>
        (simp [admin_update_resume_records_with_applicants_video_status_command,
          admin_update_resume_records_with_applicants_video_status_body,
          is_user_in_records, hc, ha, ha0, hargs, hu, hrec, hp, hd]; try simp [delegatesOf])
    · simp [admin_update_resume_records_with_applicants_video_status_command,
        admin_update_resume_records_with_applicants_video_status_body,
        is_user_in_records, hc, ha, ha0, hargs, hu, hrec, hp]
      try simp [delegatesOf]
  · by_cases hp : env.is_vacany_data_enough_for_resume_analysis u
    · cases hd : env.delegateResult "recommend_resumes_triggered_by_admin_command" u <;>
        (simp [admin_recommend_resumes_command, admin_recommend_resumes_body,
          is_user_in_records, hc, ha, ha0, hargs, hu, hrec, hp, hd]; try simp [delegatesOf])
    · simp [admin_recommend_resumes_command, admin_recommend_resumes_body,
        is_user_in_records, hc, ha, ha0, hargs, hu, hrec, hp]
      try simp [delegatesOf]

/-- Witness for C4: in the base environment the data-enough predicate
holds for user `"7"`, and the fetch-fresh-resumes delegate is called for
exactly that user. -/
theorem c4_witness :
    delegatesOf (admin_get_fresh_resumes_command baseEnv).1 =
      [("source_resumes_triggered_by_admin_command", "7")] := by
  have h := (c4_readiness_gate_iff baseEnv "1" "7" rfl rfl (by decide) rfl (by decide)
    (by decide)).2.2.2.1
  simpa [baseEnv] using h

/-- The body of `admin_get_users_command` never calls the
admin-notification helper. -/
lemma adminCalls_get_users_body (env : Env) :
    adminCalls (admin_get_users_body env).1 = [] := by
  unfold admin_get_users_body
  rcases hcc : env.callerId with e | bu
  · simp [adminCalls]
  · by_cases hauth : env.ADMIN_ID = "" ∨ bu ≠ env.ADMIN_ID
    · simp [hauth, adminCalls]
    · rcases hl : env.listUsersResult with e | r <;> simp [hauth, adminCalls]

/-- The body of `admin_get_user_status_command` never calls the
admin-notification helper. -/
lemma adminCalls_get_user_status_body (env : Env) :
    adminCalls (admin_get_user_status_body env).1 = [] := by
  unfold admin_get_user_status_body
  rcases hcc : env.callerId with e | bu
  · simp [adminCalls]
  · by_cases hauth : env.ADMIN_ID = "" ∨ bu ≠ env.ADMIN_ID
    · simp [hauth, adminCalls]
    · rcases hA : env.args with _ | ⟨x, _ | ⟨y, ys⟩⟩
      · simp [hauth, adminCalls]
      · by_cases hx : x = ""
        · simp [hauth, hx, adminCalls]
        · by_cases hrec : x ∈ env.records
          · cases hd : env.delegateResult "inform_admin_about_user_readiness" x <;>
              simp [hauth, hx, hrec, hd, is_user_in_records, adminCalls]
          · simp [hauth, hx, hrec, is_user_in_records, adminCalls]
      · simp [hauth, adminCalls]

/-- The body of `admin_anazlyze_sourcing_criterais_command` never calls the
admin-notification helper. -/
lemma adminCalls_anazlyze_sourcing_criterais_body (env : Env) :
    adminCalls (admin_anazlyze_sourcing_criterais_body env).1 = [] := by
  unfold admin_anazlyze_sourcing_criterais_body
  rcases hcc : env.callerId with e | bu
  · simp [adminCalls]
  · by_cases hauth : env.ADMIN_ID = "" ∨ bu ≠ env.ADMIN_ID
    · simp [hauth, adminCalls]
    · rcases hA : env.args with _ | ⟨x, _ | ⟨y, ys⟩⟩
      · simp [hauth, adminCalls]
      · by_cases hx : x = ""
        · simp [hauth, hx, adminCalls]
        · by_cases hrec : x ∈ env.records
          · by_cases hp : env.is_vacancy_description_recieved x
            · cases hd : env.delegateResult "define_sourcing_criterias_triggered_by_admin_command" x <;>
                simp [hauth, hx, hrec, hp, hd, is_user_in_records, adminCalls]
            · simp [hauth, hx, hrec, hp, is_user_in_records, adminCalls]
          · simp [hauth, hx, hrec, is_user_in_records, adminCalls]
      · simp [hauth, adminCalls]

/-- The body of `admin_send_sourcing_criterais_to_user_command` never calls the
admin-notification helper. -/
lemma adminCalls_send_sourcing_criterais_to_user_body (env : Env) :
    adminCalls (admin_send_sourcing_criterais_to_user_body env).1 = [] := by
  unfold admin_send_sourcing_criterais_to_user_body
  rcases hcc : env.callerId with e | bu
  · simp [adminCalls]
  · by_cases hauth : env.ADMIN_ID = "" ∨ bu ≠ env.ADMIN_ID
    · simp [hauth, adminCalls]
    · rcases hA : env.args with _ | ⟨x, _ | ⟨y, ys⟩⟩
      · simp [hauth, adminCalls]
      · by_cases hx : x = ""
        · simp [hauth, hx, adminCalls]
        · by_cases hrec : x ∈ env.records
          · by_cases hp : env.is_vacancy_sourcing_criterias_recieved x
            · cases hd : env.delegateResult "send_to_user_sourcing_criterias_triggered_by_admin_command" x <;>
                simp [hauth, hx, hrec, hp, hd, is_user_in_records, adminCalls]
            · simp [hauth, hx, hrec, hp, is_user_in_records, adminCalls]
          · simp [hauth, hx, hrec, is_user_in_records, adminCalls]
      · simp [hauth, adminCalls]

/-- The body of `admin_update_negotiations_command` never calls the
admin-notification helper. -/
lemma adminCalls_update_negotiations_body (env : Env) :
    adminCalls (admin_update_negotiations_body env).1 = [] := by
  unfold admin_update_negotiations_body
  rcases hcc : env.callerId with e | bu
  · simp [adminCalls]
  · by_cases hauth : env.ADMIN_ID = "" ∨ bu ≠ env.ADMIN_ID
    · simp [hauth, adminCalls]
    · rcases hA : env.args with _ | ⟨x, _ | ⟨y, ys⟩⟩
      · simp [hauth, adminCalls]
      · by_cases hx : x = ""
        · simp [hauth, hx, adminCalls]
        · by_cases hrec : x ∈ env.records
          · by_cases hp : env.is_vacancy_selected x
            · cases hd : env.delegateResult "source_negotiations_triggered_by_admin_command" x <;>
                simp [hauth, hx, hrec, hp, hd, is_user_in_records, adminCalls]
            · simp [hauth, hx, hrec, hp, is_user_in_records, adminCalls]
          · simp [hauth, hx, hrec, is_user_in_records, adminCalls]
      · simp [hauth, adminCalls]

/-- The body of `admin_get_fresh_resumes_command` never calls the
admin-notification helper. -/
lemma adminCalls_get_fresh_resumes_body (env : Env) :
    adminCalls (admin_get_fresh_resumes_body env).1 = [] := by
  unfold admin_get_fresh_resumes_body
  rcases hcc : env.callerId with e | bu
  · simp [adminCalls]
  · by_cases hauth : env.ADMIN_ID = "" ∨ bu ≠ env.ADMIN_ID
    · simp [hauth, adminCalls]
    · rcases hA : env.args with _ | ⟨x, _ | ⟨y, ys⟩⟩
      · simp [hauth, adminCalls]
      · by_cases hx : x = ""
        · simp [hauth, hx, adminCalls]
        · by_cases hrec : x ∈ env.records
          · by_cases hp : env.is_vacany_data_enough_for_resume_analysis x
            · cases hd : env.delegateResult "source_resumes_triggered_by_admin_command" x <;>
                simp [hauth, hx, hrec, hp, hd, is_user_in_records, adminCalls]
            · simp [hauth, hx, hrec, hp, is_user_in_records, adminCalls]
          · simp [hauth, hx, hrec, is_user_in_records, adminCalls]
      · simp [hauth, adminCalls]

/-- The body of `admin_anazlyze_resumes_command` never calls the
admin-notification helper. -/
lemma adminCalls_anazlyze_resumes_body (env : Env) :
    adminCalls (admin_anazlyze_resumes_body env).1 = [] := by
  unfold admin_anazlyze_resumes_body
  rcases hcc : env.callerId with e | bu
  · simp [adminCalls]
  · by_cases hauth : env.ADMIN_ID = "" ∨ bu ≠ env.ADMIN_ID
    · simp [hauth, adminCalls]
    · rcases hA : env.args with _ | ⟨x, _ | ⟨y, ys⟩⟩
      · simp [hauth, adminCalls]
      · by_cases hx : x = ""
        · simp [hauth, hx, adminCalls]
        · by_cases hrec : x ∈ env.records
          · by_cases hp : env.is_vacany_data_enough_for_resume_analysis x
            · cases hd : env.delegateResult "analyze_resume_triggered_by_admin_command" x <;>
                simp [hauth, hx, hrec, hp, hd, is_user_in_records, adminCalls]
            · simp [hauth, hx, hrec, hp, is_user_in_records, adminCalls]
          · simp [hauth, hx, hrec, is_user_in_records, adminCalls]
      · simp [hauth, adminCalls]

/-- The body of `admin_update_resume_records_with_applicants_video_status_command` never calls the
admin-notification helper. -/
lemma adminCalls_update_resume_records_with_applicants_video_status_body (env : Env) :
    adminCalls (admin_update_resume_records_with_applicants_video_status_body env).1 = [] := by
  unfold admin_update_resume_records_with_applicants_video_status_body
  rcases hcc : env.callerId with e | bu
  · simp [adminCalls]
  · by_cases hauth : env.ADMIN_ID = "" ∨ bu ≠ env.ADMIN_ID
    · simp [hauth, adminCalls]
    · rcases hA : env.args with _ | ⟨x, _ | ⟨y, ys⟩⟩
      · simp [hauth, adminCalls]
      · by_cases hx : x = ""
        · simp [hauth, hx, adminCalls]
        · by_cases hrec : x ∈ env.records
          · by_cases hp : env.is_vacany_data_enough_for_resume_analysis x
            · cases hd : env.delegateResult "update_resume_records_with_fresh_video_from_applicants_triggered_by_admin_command" x <;>
                simp [hauth, hx, hrec, hp, hd, is_user_in_records, adminCalls]
            · simp [hauth, hx, hrec, hp, is_user_in_records, adminCalls]
          · simp [hauth, hx, hrec, is_user_in_records, adminCalls]
      · simp [hauth, adminCalls]

/-- The body of `admin_recommend_resumes_command` never calls the
admin-notification helper. -/
lemma adminCalls_recommend_resumes_body (env : Env) :
    adminCalls (admin_recommend_resumes_body env).1 = [] := by
  unfold admin_recommend_resumes_body
  rcases hcc : env.callerId with e | bu
  · simp [adminCalls]
  · by_cases hauth : env.ADMIN_ID = "" ∨ bu ≠ env.ADMIN_ID
    · simp [hauth, adminCalls]
    · rcases hA : env.args with _ | ⟨x, _ | ⟨y, ys⟩⟩
      · simp [hauth, adminCalls]
      · by_cases hx : x = ""
        · simp [hauth, hx, adminCalls]
        · by_cases hrec : x ∈ env.records
          · by_cases hp : env.is_vacany_data_enough_for_resume_analysis x
            · cases hd : env.delegateResult "recommend_resumes_triggered_by_admin_command" x <;>
                simp [hauth, hx, hrec, hp, hd, is_user_in_records, adminCalls]
            · simp [hauth, hx, hrec, hp, is_user_in_records, adminCalls]
          · simp [hauth, hx, hrec, is_user_in_records, adminCalls]
      · simp [hauth, adminCalls]

/-- The body of `admin_send_message_command` never calls the
admin-notification helper. -/
lemma adminCalls_send_message_body (env : Env) :
    adminCalls (admin_send_message_body env).1 = [] := by
  unfold admin_send_message_body
  rcases hcc : env.callerId with e | bu
  · simp [adminCalls]
  · by_cases hauth : env.ADMIN_ID = "" ∨ bu ≠ env.ADMIN_ID
    · simp [hauth, adminCalls]
    · rcases hA : env.args with _ | ⟨x, _ | ⟨y, ys⟩⟩
      · simp [hauth, adminCalls]
      · simp [hauth, adminCalls]
      · rcases hp : pyInt x with e | n
        · simp [hauth, hp, adminCalls]
        · by_cases hab : env.appAvailable = true ∧ env.botAvailable = true
          · cases hbs : env.botSendResult n (String.intercalate " " (y :: ys)) <;>
              simp [hauth, hp, hab, hbs, adminCalls]
          · simp [hauth, hp, hab, adminCalls]

/-- The body of `admin_pull_file_command` never calls the
admin-notification helper. -/
lemma adminCalls_pull_file_body (env : Env) :
    adminCalls (admin_pull_file_body env).1 = [] := by
  unfold admin_pull_file_body
  rcases hcc : env.callerId with e | bu
  · simp [adminCalls]
  · by_cases hauth : env.ADMIN_ID = "" ∨ bu ≠ env.ADMIN_ID
    · simp [hauth, adminCalls]
    · rcases hA : env.args with _ | ⟨x, _ | ⟨y, ys⟩⟩
      · simp [hauth, adminCalls]
      · by_cases hext : pathSuffix (pathJoin env.USERS_DATA_DIR x) ∈ valid_extensions
        · by_cases hfs : fsHas env.fsFiles (pathJoin env.USERS_DATA_DIR x) = true
          · by_cases hab : env.appAvailable = true ∧ env.botAvailable = true
            · cases hds : env.docSendResult <;>
                simp [hauth, hext, hfs, hab, hds, adminCalls]
            · simp [hauth, hext, hfs, hab, adminCalls]
          · simp [hauth, hext, hfs, adminCalls]
        · simp [hauth, hext, adminCalls]
      · simp [hauth, adminCalls]

/-- With an authorized caller and an argument count different from one,
the body of `admin_get_user_status_command` raises the
invalid-number-of-arguments validation error having only logged its
start. -/
lemma get_user_status_body_bad_arity (env : Env) (a : String)
    (hc : env.callerId = .ok a) (ha : env.ADMIN_ID = a) (ha0 : a ≠ "")
    (hlen : env.args.length ≠ 1) :
    admin_get_user_status_body env =
      ([Event.logInfo ("admin_get_user_status_command: started. User_id: " ++ a)],
        some "Invalid number of arguments.") := by
  rcases hA : env.args with _ | ⟨x, _ | ⟨y, ys⟩⟩
  · simp [admin_get_user_status_body, hc, ha, ha0, hA]
  · rw [hA] at hlen; simp at hlen
  · simp [admin_get_user_status_body, hc, ha, ha0, hA]

/-- With an authorized caller and an argument count different from one,
the body of `admin_anazlyze_sourcing_criterais_command` raises the
invalid-number-of-arguments validation error having only logged its
start. -/
lemma anazlyze_sourcing_criterais_body_bad_arity (env : Env) (a : String)
    (hc : env.callerId = .ok a) (ha : env.ADMIN_ID = a) (ha0 : a ≠ "")
    (hlen : env.args.length ≠ 1) :
    admin_anazlyze_sourcing_criterais_body env =
      ([Event.logInfo ("admin_anazlyze_sourcing_criterais_command: started. User_id: " ++ a)],
        some "Invalid number of arguments.") := by
  rcases hA : env.args with _ | ⟨x, _ | ⟨y, ys⟩⟩
  · simp [admin_anazlyze_sourcing_criterais_body, hc, ha, ha0, hA]
  · rw [hA] at hlen; simp at hlen
  · simp [admin_anazlyze_sourcing_criterais_body, hc, ha, ha0, hA]

/-- With an authorized caller and an argument count different from one,
the body of `admin_send_sourcing_criterais_to_user_command` raises the
invalid-number-of-arguments validation error having only logged its
start. -/
lemma send_sourcing_criterais_to_user_body_bad_arity (env : Env) (a : String)
    (hc : env.callerId = .ok a) (ha : env.ADMIN_ID = a) (ha0 : a ≠ "")
    (hlen : env.args.length ≠ 1) :
    admin_send_sourcing_criterais_to_user_body env =
      ([Event.logInfo ("admin_send_sourcing_criterais_to_user_command: started. User_id: " ++ a)],
        some "Invalid number of arguments.") := by
  rcases hA : env.args with _ | ⟨x, _ | ⟨y, ys⟩⟩
  · simp [admin_send_sourcing_criterais_to_user_body, hc, ha, ha0, hA]
  · rw [hA] at hlen; simp at hlen
  · simp [admin_send_sourcing_criterais_to_user_body, hc, ha, ha0, hA]

/-- With an authorized caller and an argument count different from one,
the body of `admin_update_negotiations_command` raises the
invalid-number-of-arguments validation error having only logged its
start. -/
lemma update_negotiations_body_bad_arity (env : Env) (a : String)
    (hc : env.callerId = .ok a) (ha : env.ADMIN_ID = a) (ha0 : a ≠ "")
    (hlen : env.args.length ≠ 1) :
    admin_update_negotiations_body env =
      ([Event.logInfo ("admin_update_negotiations_command: started. User_id: " ++ a)],
        some "Invalid number of arguments.") := by
  rcases hA : env.args with _ | ⟨x, _ | ⟨y, ys⟩⟩
  · simp [admin_update_negotiations_body, hc, ha, ha0, hA]
  · rw [hA] at hlen; simp at hlen
  · simp [admin_update_negotiations_body, hc, ha, ha0, hA]

/-- With an authorized caller and an argument count different from one,
the body of `admin_get_fresh_resumes_command` raises the
invalid-number-of-arguments validation error having only logged its
start. -/
lemma get_fresh_resumes_body_bad_arity (env : Env) (a : String)
    (hc : env.callerId = .ok a) (ha : env.ADMIN_ID = a) (ha0 : a ≠ "")
    (hlen : env.args.length ≠ 1) :
    admin_get_fresh_resumes_body env =
      ([Event.logInfo ("admin_get_fresh_resumes_command: started. User_id: " ++ a)],
        some "Invalid number of arguments.") := by
  rcases hA : env.args with _ | ⟨x, _ | ⟨y, ys⟩⟩
  · simp [admin_get_fresh_resumes_body, hc, ha, ha0, hA]
  · rw [hA] at hlen; simp at hlen
  · simp [admin_get_fresh_resumes_body, hc, ha, ha0, hA]

/-- With an authorized caller and an argument count different from one,
the body of `admin_anazlyze_resumes_command` raises the
invalid-number-of-arguments validation error having only logged its
start. -/
lemma anazlyze_resumes_body_bad_arity (env : Env) (a : String)
    (hc : env.callerId = .ok a) (ha : env.ADMIN_ID = a) (ha0 : a ≠ "")
    (hlen : env.args.length ≠ 1) :
    admin_anazlyze_resumes_body env =
      ([Event.logInfo ("admin_anazlyze_resumes_command: started. User_id: " ++ a)],
        some "Invalid number of arguments.") := by
  rcases hA : env.args with _ | ⟨x, _ | ⟨y, ys⟩⟩
  · simp [admin_anazlyze_resumes_body, hc, ha, ha0, hA]
  · rw [hA] at hlen; simp at hlen
  · simp [admin_anazlyze_resumes_body, hc, ha, ha0, hA]

/-- With an authorized caller and an argument count different from one,
the body of `admin_update_resume_records_with_applicants_video_status_command` raises the
invalid-number-of-arguments validation error having only logged its
start. -/
lemma update_resume_records_with_applicants_video_status_body_bad_arity (env : Env) (a : String)
    (hc : env.callerId = .ok a) (ha : env.ADMIN_ID = a) (ha0 : a ≠ "")
    (hlen : env.args.length ≠ 1) :
    admin_update_resume_records_with_applicants_video_status_body env =
      ([Event.logInfo ("admin_update_resume_records_with_applicants_video_status_command: started. User_id: " ++ a)],
        some "Invalid number of arguments.") := by
  rcases hA : env.args with _ | ⟨x, _ | ⟨y, ys⟩⟩
  · simp [admin_update_resume_records_with_applicants_video_status_body, hc, ha, ha0, hA]
  · rw [hA] at hlen; simp at hlen
  · simp [admin_update_resume_records_with_applicants_video_status_body, hc, ha, ha0, hA]

/-- With an authorized caller and an argument count different from one,
the body of `admin_recommend_resumes_command` raises the
invalid-number-of-arguments validation error having only logged its
start. -/
lemma recommend_resumes_body_bad_arity (env : Env) (a : String)
    (hc : env.callerId = .ok a) (ha : env.ADMIN_ID = a) (ha0 : a ≠ "")
    (hlen : env.args.length ≠ 1) :
    admin_recommend_resumes_body env =
      ([Event.logInfo ("admin_recommend_resumes_command: started. User_id: " ++ a)],
        some "Invalid number of arguments.") := by
  rcases hA : env.args with _ | ⟨x, _ | ⟨y, ys⟩⟩
  · simp [admin_recommend_resumes_body, hc, ha, ha0, hA]
  · rw [hA] at hlen; simp at hlen
  · simp [admin_recommend_resumes_body, hc, ha, ha0, hA]

/-- With an authorized caller and fewer than two arguments, the body of
`admin_send_message_command` raises the invalid-number-of-arguments
validation error having only logged its start. -/
lemma send_message_body_bad_arity (env : Env) (a : String)
    (hc : env.callerId = .ok a) (ha : env.ADMIN_ID = a) (ha0 : a ≠ "")
    (hlen : env.args.length < 2) :
    admin_send_message_body env =
      ([Event.logInfo ("admin_send_message_command triggered by user_id: " ++ a)],
        some "Invalid number of arguments.") := by
  rcases hA : env.args with _ | ⟨x, _ | ⟨y, ys⟩⟩
  · simp [admin_send_message_body, hc, ha, ha0, hA]
  · simp [admin_send_message_body, hc, ha, ha0, hA]
  · rw [hA] at hlen; simp at hlen; omega

/-- With an authorized caller, at least two arguments and a first
argument that `int` rejects, the body of `admin_send_message_command`
raises the invalid-command-arguments validation error without any send. -/
lemma send_message_body_non_numeric (env : Env) (a x y m : String) (ys : List String)
    (hc : env.callerId = .ok a) (ha : env.ADMIN_ID = a) (ha0 : a ≠ "")
    (hA : env.args = x :: y :: ys) (hpx : pyInt x = .error m) :
    admin_send_message_body env =
      ([Event.logInfo ("admin_send_message_command triggered by user_id: " ++ a)],
        some "Invalid command arguments.") := by
  simp [admin_send_message_body, hc, ha, ha0, hA, hpx]

/-- C5 is false as stated: the user-id commands never validate that
their argument is numeric.  With the non-numeric argument `"abc"`
present in records and satisfying the readiness predicate, the admin
invocation of the fetch-fresh-resumes command raises no validation
error, sends no admin notification, and performs its pipeline delegate
call. -/
theorem c5_counterexample :
    pyInt "abc" = .error ("invalid literal for int() with base 10: " ++ "abc") ∧
    (admin_get_fresh_resumes_body { baseEnv with args := ["abc"], records := ["abc"] }).2 = none ∧
    adminCalls (admin_get_fresh_resumes_command { baseEnv with args := ["abc"], records := ["abc"] }).1 = [] ∧
    delegatesOf (admin_get_fresh_resumes_command { baseEnv with args := ["abc"], records := ["abc"] }).1 =
      [("source_resumes_triggered_by_admin_command", "abc")] := by
  refine ⟨rfl, by decide, ?_, ?_⟩ <;> decide

/-- C5 amended: for the commands taking a single user-id argument, an
admin invocation with zero or two arguments raises the
invalid-number-of-arguments validation error, triggers exactly one
admin notification (the application instance being available) and makes
no delegate call; a non-numeric argument as such is rejected only by the
message-relay command, whose integer parse failure raises the
invalid-command-arguments error with exactly one admin notification and
no send — the user-id commands check their argument only against the
records (see `c5_counterexample`). -/
theorem c5_arity_validation (env : Env) (a : String)
    (hc : env.callerId = .ok a) (ha : env.ADMIN_ID = a) (ha0 : a ≠ "")
    (happ : env.appAvailable = true) :
    (env.args.length ≠ 1 →
      (admin_get_user_status_body env).2 = some "Invalid number of arguments." ∧
      adminCalls (admin_get_user_status_command env).1 =
        ["⚠️ Error admin_get_user_status_command: " ++ "Invalid number of arguments." ++ "\nAdmin ID: " ++ a] ∧
      delegatesOf (admin_get_user_status_command env).1 = []) ∧
    (env.args.length ≠ 1 →
      (admin_anazlyze_sourcing_criterais_body env).2 = some "Invalid number of arguments." ∧
      adminCalls (admin_anazlyze_sourcing_criterais_command env).1 =
        ["⚠️ Error admin_anazlyze_sourcing_criterais_command: " ++ "Invalid number of arguments." ++ "\nAdmin ID: " ++ a] ∧
      delegatesOf (admin_anazlyze_sourcing_criterais_command env).1 = []) ∧
    (env.args.length ≠ 1 →
      (admin_send_sourcing_criterais_to_user_body env).2 = some "Invalid number of arguments." ∧
      adminCalls (admin_send_sourcing_criterais_to_user_command env).1 =
        ["⚠️ Error admin_send_sourcing_criterais_to_user_command: " ++ "Invalid number of arguments." ++ "\nAdmin ID: " ++ a] ∧
      delegatesOf (admin_send_sourcing_criterais_to_user_command env).1 = []) ∧
    (env.args.length ≠ 1 →
      (admin_update_negotiations_body env).2 = some "Invalid number of arguments." ∧
      adminCalls (admin_update_negotiations_command env).1 =
        ["⚠️ Error admin_update_negotiations_command: " ++ "Invalid number of arguments." ++ "\nAdmin ID: " ++ a] ∧
      delegatesOf (admin_update_negotiations_command env).1 = []) ∧
    (env.args.length ≠ 1 →
      (admin_get_fresh_resumes_body env).2 = some "Invalid number of arguments." ∧
      adminCalls (admin_get_fresh_resumes_command env).1 =
        ["⚠️ Error admin_get_fresh_resumes_command: " ++ "Invalid number of arguments." ++ "\nAdmin ID: " ++ a] ∧
      delegatesOf (admin_get_fresh_resumes_command env).1 = []) ∧
    (env.args.length ≠ 1 →
      (admin_anazlyze_resumes_body env).2 = some "Invalid number of arguments." ∧
      adminCalls (admin_anazlyze_resumes_command env).1 =
        ["⚠️ Error admin_anazlyze_resumes_command: " ++ "Invalid number of arguments." ++ "\nAdmin ID: " ++ a] ∧
      delegatesOf (admin_anazlyze_resumes_command env).1 = []) ∧
    (env.args.length ≠ 1 →
      (admin_update_resume_records_with_applicants_video_status_body env).2 = some "Invalid number of arguments." ∧
      adminCalls (admin_update_resume_records_with_applicants_video_status_command env).1 =
        ["⚠️ Error admin_update_resume_records_with_applicants_video_status_command: " ++ "Invalid number of arguments." ++ "\nAdmin ID: " ++ a] ∧
      delegatesOf (admin_update_resume_records_with_applicants_video_status_command env).1 = []) ∧
    (env.args.length ≠ 1 →
      (admin_recommend_resumes_body env).2 = some "Invalid number of arguments." ∧
      adminCalls (admin_recommend_resumes_command env).1 =
        ["⚠️ Error admin_recommend_resumes_command: " ++ "Invalid number of arguments." ++ "\nAdmin ID: " ++ a] ∧
      delegatesOf (admin_recommend_resumes_command env).1 = []) ∧
    (env.args.length < 2 →
      (admin_send_message_body env).2 = some "Invalid number of arguments." ∧
      adminCalls (admin_send_message_command env).1 =
        ["⚠️ Error executing admin_send_message_to_user command: " ++ "Invalid number of arguments." ++ "\nAdmin ID: " ++ a] ∧
      botSends (admin_send_message_command env).1 = []) ∧
    (∀ x y m ys, env.args = x :: y :: ys → pyInt x = .error m →
      (admin_send_message_body env).2 = some "Invalid command arguments." ∧
      adminCalls (admin_send_message_command env).1 =
        ["⚠️ Error executing admin_send_message_to_user command: " ++ "Invalid command arguments." ++ "\nAdmin ID: " ++ a] ∧
      botSends (admin_send_message_command env).1 = []) := by
  refine ⟨?_, ?_, ?_, ?_, ?_, ?_, ?_, ?_, ?_, ?_⟩
  · intro hlen
    have hb := get_user_status_body_bad_arity env a hc ha ha0 hlen
    refine ⟨by rw [hb], ?_, ?_⟩
    · rw [admin_get_user_status_command, adminCalls_handlerWrap_some env _ _ _ (by rw [hb]) happ, hb]
      simp [adminCalls, callerOrUnknown, hc]
    · simp [admin_get_user_status_command, hb]; try simp [delegatesOf]
  · intro hlen
    have hb := anazlyze_sourcing_criterais_body_bad_arity env a hc ha ha0 hlen
    refine ⟨by rw [hb], ?_, ?_⟩
    · rw [admin_anazlyze_sourcing_criterais_command, adminCalls_handlerWrap_some env _ _ _ (by rw [hb]) happ, hb]
      simp [adminCalls, callerOrUnknown, hc]
    · simp [admin_anazlyze_sourcing_criterais_command, hb]; try simp [delegatesOf]
  · intro hlen
    have hb := send_sourcing_criterais_to_user_body_bad_arity env a hc ha ha0 hlen
    refine ⟨by rw [hb], ?_, ?_⟩
    · rw [admin_send_sourcing_criterais_to_user_command, adminCalls_handlerWrap_some env _ _ _ (by rw [hb]) happ, hb]
      simp [adminCalls, callerOrUnknown, hc]
    · simp [admin_send_sourcing_criterais_to_user_command, hb]; try simp [delegatesOf]
  · intro hlen
    have hb := update_negotiations_body_bad_arity env a hc ha ha0 hlen
    refine ⟨by rw [hb], ?_, ?_⟩
    · rw [admin_update_negotiations_command, adminCalls_handlerWrap_some env _ _ _ (by rw [hb]) happ, hb]
      simp [adminCalls, callerOrUnknown, hc]
    · simp [admin_update_negotiations_command, hb]; try simp [delegatesOf]
  · intro hlen
    have hb := get_fresh_resumes_body_bad_arity env a hc ha ha0 hlen
    refine ⟨by rw [hb], ?_, ?_⟩
    · rw [admin_get_fresh_resumes_command, adminCalls_handlerWrap_some env _ _ _ (by rw [hb]) happ, hb]
      simp [adminCalls, callerOrUnknown, hc]
    · simp [admin_get_fresh_resumes_command, hb]; try simp [delegatesOf]
  · intro hlen
    have hb := anazlyze_resumes_body_bad_arity env a hc ha ha0 hlen
    refine ⟨by rw [hb], ?_, ?_⟩
    · rw [admin_anazlyze_resumes_command, adminCalls_handlerWrap_some env _ _ _ (by rw [hb]) happ, hb]
      simp [adminCalls, callerOrUnknown, hc]
    · simp [admin_anazlyze_resumes_command, hb]; try simp [delegatesOf]
  · intro hlen
    have hb := update_resume_records_with_applicants_video_status_body_bad_arity env a hc ha ha0 hlen
    refine ⟨by rw [hb], ?_, ?_⟩
    · rw [admin_update_resume_records_with_applicants_video_status_command, adminCalls_handlerWrap_some env _ _ _ (by rw [hb]) happ, hb]
      simp [adminCalls, callerOrUnknown, hc]
    · simp [admin_update_resume_records_with_applicants_video_status_command, hb]; try simp [delegatesOf]
  · intro hlen
    have hb := recommend_resumes_body_bad_arity env a hc ha ha0 hlen
    refine ⟨by rw [hb], ?_, ?_⟩
    · rw [admin_recommend_resumes_command, adminCalls_handlerWrap_some env _ _ _ (by rw [hb]) happ, hb]
      simp [adminCalls, callerOrUnknown, hc]
    · simp [admin_recommend_resumes_command, hb]; try simp [delegatesOf]
  · intro hlen
    have hb := send_message_body_bad_arity env a hc ha ha0 hlen
    refine ⟨by rw [hb], ?_, ?_⟩
    · rw [admin_send_message_command, hb]
      simp [happ, callerOrUnknown, hc]
    · rw [admin_send_message_command, hb]
      simp [happ]
  · intro x y m ys hA hpx
    have hb := send_message_body_non_numeric env a x y m ys hc ha ha0 hA hpx
    refine ⟨by rw [hb], ?_, ?_⟩
    · rw [admin_send_message_command, hb]
      simp [happ, callerOrUnknown, hc]
    · rw [admin_send_message_command, hb]
      simp [happ]

/-- Witness for C5 (amended): the admin calling the fetch-fresh-resumes
command with no argument gets exactly one admin notification reporting
the arity error, and no delegate runs; calling the message-relay command
as `admin_send_message abc hello` gets the invalid-arguments report. -/
theorem c5_witness :
    (adminCalls (admin_get_fresh_resumes_command { baseEnv with args := [] }).1 =
      ["⚠️ Error admin_get_fresh_resumes_command: " ++ "Invalid number of arguments." ++ "\nAdmin ID: " ++ "1"] ∧
      delegatesOf (admin_get_fresh_resumes_command { baseEnv with args := [] }).1 = []) ∧
    adminCalls (admin_send_message_command { baseEnv with args := ["abc", "hello"] }).1 =
      ["⚠️ Error executing admin_send_message_to_user command: " ++ "Invalid command arguments." ++ "\nAdmin ID: " ++ "1"] :=
  ⟨⟨((c5_arity_validation { baseEnv with args := [] } "1" rfl rfl (by decide) rfl).2.2.2.2.1
      (by decide)).2.1,
    ((c5_arity_validation { baseEnv with args := [] } "1" rfl rfl (by decide) rfl).2.2.2.2.1
      (by decide)).2.2⟩,
    ((c5_arity_validation { baseEnv with args := ["abc", "hello"] } "1" rfl rfl (by decide) rfl).2.2.2.2.2.2.2.2.2
      "abc" "hello" ("invalid literal for int() with base 10: " ++ "abc") [] rfl rfl).2.1⟩

/-- With an authorized caller and a single nonempty argument naming a
user absent from records, the body of `admin_get_user_status_command`
raises the not-found validation error without any user message. -/
lemma get_user_status_body_not_in_records (env : Env) (a u : String)
    (hc : env.callerId = .ok a) (ha : env.ADMIN_ID = a) (ha0 : a ≠ "")
    (hA : env.args = [u]) (hu : u ≠ "") (hrec : u ∉ env.records) :
    admin_get_user_status_body env =
      ([Event.logInfo ("admin_get_user_status_command: started. User_id: " ++ a)],
        some ("User " ++ u ++ " not found in records.")) := by
  simp [admin_get_user_status_body, hc, ha, ha0, hA, hu, hrec, is_user_in_records]

/-- With an authorized caller and a single nonempty argument naming a
user absent from records, the body of `admin_anazlyze_sourcing_criterais_command`
raises the not-found validation error without any user message. -/
lemma anazlyze_sourcing_criterais_body_not_in_records (env : Env) (a u : String)
    (hc : env.callerId = .ok a) (ha : env.ADMIN_ID = a) (ha0 : a ≠ "")
    (hA : env.args = [u]) (hu : u ≠ "") (hrec : u ∉ env.records) :
    admin_anazlyze_sourcing_criterais_body env =
      ([Event.logInfo ("admin_anazlyze_sourcing_criterais_command: started. User_id: " ++ a)],
        some ("User " ++ u ++ " not found in records.")) := by
  simp [admin_anazlyze_sourcing_criterais_body, hc, ha, ha0, hA, hu, hrec, is_user_in_records]

/-- With an authorized caller and a single nonempty argument naming a
user absent from records, the body of `admin_send_sourcing_criterais_to_user_command`
raises the not-found validation error without any user message. -/
lemma send_sourcing_criterais_to_user_body_not_in_records (env : Env) (a u : String)
    (hc : env.callerId = .ok a) (ha : env.ADMIN_ID = a) (ha0 : a ≠ "")
    (hA : env.args = [u]) (hu : u ≠ "") (hrec : u ∉ env.records) :
    admin_send_sourcing_criterais_to_user_body env =
      ([Event.logInfo ("admin_send_sourcing_criterais_to_user_command: started. User_id: " ++ a)],
        some ("User " ++ u ++ " not found in records.")) := by
  simp [admin_send_sourcing_criterais_to_user_body, hc, ha, ha0, hA, hu, hrec, is_user_in_records]

/-- With an authorized caller and a single nonempty argument naming a
user absent from records, the body of `admin_update_negotiations_command`
raises the not-found validation error without any user message. -/
lemma update_negotiations_body_not_in_records (env : Env) (a u : String)
    (hc : env.callerId = .ok a) (ha : env.ADMIN_ID = a) (ha0 : a ≠ "")
    (hA : env.args = [u]) (hu : u ≠ "") (hrec : u ∉ env.records) :
    admin_update_negotiations_body env =
      ([Event.logInfo ("admin_update_negotiations_command: started. User_id: " ++ a)],
        some ("User " ++ u ++ " not found in records.")) := by
  simp [admin_update_negotiations_body, hc, ha, ha0, hA, hu, hrec, is_user_in_records]

/-- With an authorized caller and a single nonempty argument naming a
user absent from records, the body of `admin_get_fresh_resumes_command`
raises the not-found validation error without any user message. -/
lemma get_fresh_resumes_body_not_in_records (env : Env) (a u : String)
    (hc : env.callerId = .ok a) (ha : env.ADMIN_ID = a) (ha0 : a ≠ "")
    (hA : env.args = [u]) (hu : u ≠ "") (hrec : u ∉ env.records) :
    admin_get_fresh_resumes_body env =
      ([Event.logInfo ("admin_get_fresh_resumes_command: started. User_id: " ++ a)],
        some ("User " ++ u ++ " not found in records.")) := by
  simp [admin_get_fresh_resumes_body, hc, ha, ha0, hA, hu, hrec, is_user_in_records]

/-- With an authorized caller and a single nonempty argument naming a
user absent from records, the body of `admin_anazlyze_resumes_command`
raises the not-found validation error without any user message. -/
lemma anazlyze_resumes_body_not_in_records (env : Env) (a u : String)
    (hc : env.callerId = .ok a) (ha : env.ADMIN_ID = a) (ha0 : a ≠ "")
    (hA : env.args = [u]) (hu : u ≠ "") (hrec : u ∉ env.records) :
    admin_anazlyze_resumes_body env =
      ([Event.logInfo ("admin_anazlyze_resumes_command: started. User_id: " ++ a)],
        some ("User " ++ u ++ " not found in records.")) := by
  simp [admin_anazlyze_resumes_body, hc, ha, ha0, hA, hu, hrec, is_user_in_records]

/-- With an authorized caller and a single nonempty argument naming a
user absent from records, the body of `admin_update_resume_records_with_applicants_video_status_command`
raises the not-found validation error without any user message. -/
lemma update_resume_records_with_applicants_video_status_body_not_in_records (env : Env) (a u : String)
    (hc : env.callerId = .ok a) (ha : env.ADMIN_ID = a) (ha0 : a ≠ "")
    (hA : env.args = [u]) (hu : u ≠ "") (hrec : u ∉ env.records) :
    admin_update_resume_records_with_applicants_video_status_body env =
      ([Event.logInfo ("admin_update_resume_records_with_applicants_video_status_command: started. User_id: " ++ a)],
        some ("User " ++ u ++ " not found in records.")) := by
  simp [admin_update_resume_records_with_applicants_video_status_body, hc, ha, ha0, hA, hu, hrec, is_user_in_records]

/-- With an authorized caller and a single nonempty argument naming a
user absent from records, the body of `admin_recommend_resumes_command`
raises the not-found validation error without any user message. -/
lemma recommend_resumes_body_not_in_records (env : Env) (a u : String)
    (hc : env.callerId = .ok a) (ha : env.ADMIN_ID = a) (ha0 : a ≠ "")
    (hA : env.args = [u]) (hu : u ≠ "") (hrec : u ∉ env.records) :
    admin_recommend_resumes_body env =
      ([Event.logInfo ("admin_recommend_resumes_command: started. User_id: " ++ a)],
        some ("User " ++ u ++ " not found in records.")) := by
  simp [admin_recommend_resumes_body, hc, ha, ha0, hA, hu, hrec, is_user_in_records]

/-- With an authorized caller and a single nonempty argument naming a
user in records whose readiness predicate is false, the body of
`admin_anazlyze_sourcing_criterais_command` raises the unmet-precondition error
with the message the source hard-codes there. -/
lemma anazlyze_sourcing_criterais_body_not_ready (env : Env) (a u : String)
    (hc : env.callerId = .ok a) (ha : env.ADMIN_ID = a) (ha0 : a ≠ "")
    (hA : env.args = [u]) (hu : u ≠ "") (hrec : u ∈ env.records)
    (hp : env.is_vacancy_description_recieved u = false) :
    admin_anazlyze_sourcing_criterais_body env =
      ([Event.logInfo ("admin_anazlyze_sourcing_criterais_command: started. User_id: " ++ a)],
        some ("User " ++ u ++ " does not have vacancy description received.")) := by
  simp [admin_anazlyze_sourcing_criterais_body, hc, ha, ha0, hA, hu, hrec, hp, is_user_in_records]

/-- With an authorized caller and a single nonempty argument naming a
user in records whose readiness predicate is false, the body of
`admin_send_sourcing_criterais_to_user_command` raises the unmet-precondition error
with the message the source hard-codes there. -/
lemma send_sourcing_criterais_to_user_body_not_ready (env : Env) (a u : String)
    (hc : env.callerId = .ok a) (ha : env.ADMIN_ID = a) (ha0 : a ≠ "")
    (hA : env.args = [u]) (hu : u ≠ "") (hrec : u ∈ env.records)
    (hp : env.is_vacancy_sourcing_criterias_recieved u = false) :
    admin_send_sourcing_criterais_to_user_body env =
      ([Event.logInfo ("admin_send_sourcing_criterais_to_user_command: started. User_id: " ++ a),
        Event.logDebug ("User " ++ u ++ " found in records.")],
        some ("User " ++ u ++ " does not have enough vacancy data for resume analysis.")) := by
  simp [admin_send_sourcing_criterais_to_user_body, hc, ha, ha0, hA, hu, hrec, hp, is_user_in_records]

/-- With an authorized caller and a single nonempty argument naming a
user in records whose readiness predicate is false, the body of
`admin_update_negotiations_command` raises the unmet-precondition error
with the message the source hard-codes there. -/
lemma update_negotiations_body_not_ready (env : Env) (a u : String)
    (hc : env.callerId = .ok a) (ha : env.ADMIN_ID = a) (ha0 : a ≠ "")
    (hA : env.args = [u]) (hu : u ≠ "") (hrec : u ∈ env.records)
    (hp : env.is_vacancy_selected u = false) :
    admin_update_negotiations_body env =
      ([Event.logInfo ("admin_update_negotiations_command: started. User_id: " ++ a)],
        some ("User " ++ u ++ " does not have enough vacancy data for resume analysis.")) := by
  simp [admin_update_negotiations_body, hc, ha, ha0, hA, hu, hrec, hp, is_user_in_records]

/-- With an authorized caller and a single nonempty argument naming a
user in records whose readiness predicate is false, the body of
`admin_get_fresh_resumes_command` raises the unmet-precondition error
with the message the source hard-codes there. -/
lemma get_fresh_resumes_body_not_ready (env : Env) (a u : String)
    (hc : env.callerId = .ok a) (ha : env.ADMIN_ID = a) (ha0 : a ≠ "")
    (hA : env.args = [u]) (hu : u ≠ "") (hrec : u ∈ env.records)
    (hp : env.is_vacany_data_enough_for_resume_analysis u = false) :
    admin_get_fresh_resumes_body env =
      ([Event.logInfo ("admin_get_fresh_resumes_command: started. User_id: " ++ a)],
        some ("User " ++ u ++ " does not have enough vacancy data for resume analysis.")) := by
  simp [admin_get_fresh_resumes_body, hc, ha, ha0, hA, hu, hrec, hp, is_user_in_records]

/-- With an authorized caller and a single nonempty argument naming a
user in records whose readiness predicate is false, the body of
`admin_anazlyze_resumes_command` raises the unmet-precondition error
with the message the source hard-codes there. -/
lemma anazlyze_resumes_body_not_ready (env : Env) (a u : String)
    (hc : env.callerId = .ok a) (ha : env.ADMIN_ID = a) (ha0 : a ≠ "")
    (hA : env.args = [u]) (hu : u ≠ "") (hrec : u ∈ env.records)
    (hp : env.is_vacany_data_enough_for_resume_analysis u = false) :
    admin_anazlyze_resumes_body env =
      ([Event.logInfo ("admin_anazlyze_resumes_command: started. User_id: " ++ a)],
        some ("User " ++ u ++ " does not have enough vacancy data for resume analysis.")) := by
  simp [admin_anazlyze_resumes_body, hc, ha, ha0, hA, hu, hrec, hp, is_user_in_records]

/-- With an authorized caller and a single nonempty argument naming a
user in records whose readiness predicate is false, the body of
`admin_update_resume_records_with_applicants_video_status_command` raises the unmet-precondition error
with the message the source hard-codes there. -/
lemma update_resume_records_with_applicants_video_status_body_not_ready (env : Env) (a u : String)
    (hc : env.callerId = .ok a) (ha : env.ADMIN_ID = a) (ha0 : a ≠ "")
    (hA : env.args = [u]) (hu : u ≠ "") (hrec : u ∈ env.records)
    (hp : env.is_vacany_data_enough_for_resume_analysis u = false) :
    admin_update_resume_records_with_applicants_video_status_body env =
      ([Event.logInfo ("admin_update_resume_records_with_applicants_video_status_command: started. User_id: " ++ a)],
        some ("User " ++ u ++ " does not have enough vacancy data for resume analysis.")) := by
  simp [admin_update_resume_records_with_applicants_video_status_body, hc, ha, ha0, hA, hu, hrec, hp, is_user_in_records]

/-- With an authorized caller and a single nonempty argument naming a
user in records whose readiness predicate is false, the body of
`admin_recommend_resumes_command` raises the unmet-precondition error
with the message the source hard-codes there. -/
lemma recommend_resumes_body_not_ready (env : Env) (a u : String)
    (hc : env.callerId = .ok a) (ha : env.ADMIN_ID = a) (ha0 : a ≠ "")
    (hA : env.args = [u]) (hu : u ≠ "") (hrec : u ∈ env.records)
    (hp : env.is_vacany_data_enough_for_resume_analysis u = false) :
    admin_recommend_resumes_body env =
      ([Event.logInfo ("admin_recommend_resumes_command: started. User_id: " ++ a)],
        some ("User " ++ u ++ " does not have enough vacancy data for resume analysis.")) := by
  simp [admin_recommend_resumes_body, hc, ha, ha0, hA, hu, hrec, hp, is_user_in_records]

/-- With an authorized caller, the body of `admin_get_user_status_command`
never sends a message to the calling chat (its success path only
delegates). -/
lemma userMsgs_get_user_status_body_auth (env : Env) (a : String)
    (hc : env.callerId = .ok a) (ha : env.ADMIN_ID = a) (ha0 : a ≠ "") :
    userMsgs (admin_get_user_status_body env).1 = [] := by
  rcases hA : env.args with _ | ⟨x, _ | ⟨y, ys⟩⟩
  · simp [admin_get_user_status_body, hc, ha, ha0, hA]
  · by_cases hx : x = ""
    · simp [admin_get_user_status_body, hc, ha, ha0, hA, hx]
    · by_cases hrec : x ∈ env.records
      · cases hd : env.delegateResult "inform_admin_about_user_readiness" x <;>
          simp [admin_get_user_status_body, hc, ha, ha0, hA, hx, hrec, hd, is_user_in_records]
      · simp [admin_get_user_status_body, hc, ha, ha0, hA, hx, hrec, is_user_in_records]
  · simp [admin_get_user_status_body, hc, ha, ha0, hA]

/-- With an authorized caller, the body of `admin_pull_file_command`
never sends a message to the calling chat: its success path sends a
document, and every failure path (arity, extension, missing file,
delivery failure) raises without messaging the caller. -/
lemma userMsgs_pull_file_body_auth (env : Env) (a : String)
    (hc : env.callerId = .ok a) (ha : env.ADMIN_ID = a) (ha0 : a ≠ "") :
    userMsgs (admin_pull_file_body env).1 = [] := by
  rcases hA : env.args with _ | ⟨x, _ | ⟨y, ys⟩⟩
  · simp [admin_pull_file_body, hc, ha, ha0, hA]
  · by_cases hext : pathSuffix (pathJoin env.USERS_DATA_DIR x) ∈ valid_extensions
    · by_cases hfs : fsHas env.fsFiles (pathJoin env.USERS_DATA_DIR x) = true
      · by_cases hab : env.appAvailable = true ∧ env.botAvailable = true
        · cases hds : env.docSendResult <;>
            simp [admin_pull_file_body, hc, ha, ha0, hA, hext, hfs, hab, hds]
        · simp [admin_pull_file_body, hc, ha, ha0, hA, hext, hfs, hab]
      · simp [admin_pull_file_body, hc, ha, ha0, hA, hext, hfs]
    · simp [admin_pull_file_body, hc, ha, ha0, hA, hext]
  · simp [admin_pull_file_body, hc, ha, ha0, hA]

/-- C6 is false as stated: when `context.application` is unavailable, an
exception raised inside a handler (here a bad argument count in the
get-user-status command) is caught but reported to nobody — the admin
notification helper is never called and nothing reaches the admin
channel, instead of being reported exactly once. -/
theorem c6_counterexample :
    (admin_get_user_status_body { baseEnv with args := [], appAvailable := false }).2 =
      some "Invalid number of arguments." ∧
    adminCalls (admin_get_user_status_command { baseEnv with args := [], appAvailable := false }).1 = [] ∧
    adminSends (admin_get_user_status_command { baseEnv with args := [], appAvailable := false }).1 = [] := by
  refine ⟨by decide, ?_, ?_⟩ <;> decide

/-- C6 amended: no handler lets an exception escape to the chat
transport, and whenever a handler body raises and the application
instance is available, the admin notification helper is called exactly
once, with the command report prefix, the exception text, and the
caller's resolved id or the literal `"unknown"` (`callerOrUnknown`).
When the application instance is unavailable the error is only logged
and no report is made (see `c6_counterexample`). -/
theorem c6_exceptions_reported_once (env : Env) :
    (admin_get_users_command env).2 = none ∧
    (∀ e, (admin_get_users_body env).2 = some e → env.appAvailable = true →
      adminCalls (admin_get_users_command env).1 =
        ["⚠️ Error admin_get_users_command: " ++ e ++ "\nAdmin ID: " ++ callerOrUnknown env]) ∧
    (admin_get_user_status_command env).2 = none ∧
    (∀ e, (admin_get_user_status_body env).2 = some e → env.appAvailable = true →
      adminCalls (admin_get_user_status_command env).1 =
        ["⚠️ Error admin_get_user_status_command: " ++ e ++ "\nAdmin ID: " ++ callerOrUnknown env]) ∧
    (admin_anazlyze_sourcing_criterais_command env).2 = none ∧
    (∀ e, (admin_anazlyze_sourcing_criterais_body env).2 = some e → env.appAvailable = true →
      adminCalls (admin_anazlyze_sourcing_criterais_command env).1 =
        ["⚠️ Error admin_anazlyze_sourcing_criterais_command: " ++ e ++ "\nAdmin ID: " ++ callerOrUnknown env]) ∧
    (admin_send_sourcing_criterais_to_user_command env).2 = none ∧
    (∀ e, (admin_send_sourcing_criterais_to_user_body env).2 = some e → env.appAvailable = true →
      adminCalls (admin_send_sourcing_criterais_to_user_command env).1 =
        ["⚠️ Error admin_send_sourcing_criterais_to_user_command: " ++ e ++ "\nAdmin ID: " ++ callerOrUnknown env]) ∧
    (admin_update_negotiations_command env).2 = none ∧
    (∀ e, (admin_update_negotiations_body env).2 = some e → env.appAvailable = true →
      adminCalls (admin_update_negotiations_command env).1 =
        ["⚠️ Error admin_update_negotiations_command: " ++ e ++ "\nAdmin ID: " ++ callerOrUnknown env]) ∧
    (admin_get_fresh_resumes_command env).2 = none ∧
    (∀ e, (admin_get_fresh_resumes_body env).2 = some e → env.appAvailable = true →
      adminCalls (admin_get_fresh_resumes_command env).1 =
        ["⚠️ Error admin_get_fresh_resumes_command: " ++ e ++ "\nAdmin ID: " ++ callerOrUnknown env]) ∧
    (admin_anazlyze_resumes_command env).2 = none ∧
    (∀ e, (admin_anazlyze_resumes_body env).2 = some e → env.appAvailable = true →
      adminCalls (admin_anazlyze_resumes_command env).1 =
        ["⚠️ Error admin_anazlyze_resumes_command: " ++ e ++ "\nAdmin ID: " ++ callerOrUnknown env]) ∧
    (admin_update_resume_records_with_applicants_video_status_command env).2 = none ∧
    (∀ e, (admin_update_resume_records_with_applicants_video_status_body env).2 = some e → env.appAvailable = true →
      adminCalls (admin_update_resume_records_with_applicants_video_status_command env).1 =
        ["⚠️ Error admin_update_resume_records_with_applicants_video_status_command: " ++ e ++ "\nAdmin ID: " ++ callerOrUnknown env]) ∧
    (admin_recommend_resumes_command env).2 = none ∧
    (∀ e, (admin_recommend_resumes_body env).2 = some e → env.appAvailable = true →
      adminCalls (admin_recommend_resumes_command env).1 =
        ["⚠️ Error admin_recommend_resumes_command: " ++ e ++ "\nAdmin ID: " ++ callerOrUnknown env]) ∧
    (admin_pull_file_command env).2 = none ∧
    (∀ e, (admin_pull_file_body env).2 = some e → env.appAvailable = true →
      adminCalls (admin_pull_file_command env).1 =
        ["⚠️ Error admin_pull_file_command: " ++ e ++ "\nAdmin ID: " ++ callerOrUnknown env]) ∧
    (admin_send_message_command env).2 = none ∧
    (∀ e, (admin_send_message_body env).2 = some e → env.appAvailable = true →
      adminCalls (admin_send_message_command env).1 =
        ["⚠️ Error executing admin_send_message_to_user command: " ++ e ++ "\nAdmin ID: " ++ callerOrUnknown env]) := by
  refine ⟨?_, ?_, ?_, ?_, ?_, ?_, ?_, ?_, ?_, ?_, ?_, ?_, ?_, ?_, ?_, ?_, ?_, ?_, ?_, ?_, ?_, ?_⟩
  · simp [admin_get_users_command]
  · intro e he happ
    rw [admin_get_users_command, adminCalls_handlerWrap_some env _ _ _ he happ, adminCalls_get_users_body]
    simp
  · simp [admin_get_user_status_command]
  · intro e he happ
    rw [admin_get_user_status_command, adminCalls_handlerWrap_some env _ _ _ he happ, adminCalls_get_user_status_body]
    simp
  · simp [admin_anazlyze_sourcing_criterais_command]
  · intro e he happ
    rw [admin_anazlyze_sourcing_criterais_command, adminCalls_handlerWrap_some env _ _ _ he happ, adminCalls_anazlyze_sourcing_criterais_body]
    simp
  · simp [admin_send_sourcing_criterais_to_user_command]
  · intro e he happ
    rw [admin_send_sourcing_criterais_to_user_command, adminCalls_handlerWrap_some env _ _ _ he happ, adminCalls_send_sourcing_criterais_to_user_body]
    simp
  · simp [admin_update_negotiations_command]
  · intro e he happ
    rw [admin_update_negotiations_command, adminCalls_handlerWrap_some env _ _ _ he happ, adminCalls_update_negotiations_body]
    simp
  · simp [admin_get_fresh_resumes_command]
  · intro e he happ
    rw [admin_get_fresh_resumes_command, adminCalls_handlerWrap_some env _ _ _ he happ, adminCalls_get_fresh_resumes_body]
    simp
  · simp [admin_anazlyze_resumes_command]
  · intro e he happ
    rw [admin_anazlyze_resumes_command, adminCalls_handlerWrap_some env _ _ _ he happ, adminCalls_anazlyze_resumes_body]
    simp
  · simp [admin_update_resume_records_with_applicants_video_status_command]
  · intro e he happ
    rw [admin_update_resume_records_with_applicants_video_status_command, adminCalls_handlerWrap_some env _ _ _ he happ, adminCalls_update_resume_records_with_applicants_video_status_body]
    simp
  · simp [admin_recommend_resumes_command]
  · intro e he happ
    rw [admin_recommend_resumes_command, adminCalls_handlerWrap_some env _ _ _ he happ, adminCalls_recommend_resumes_body]
    simp
  · simp [admin_pull_file_command]
  · intro e he happ
    rw [admin_pull_file_command, adminCalls_handlerWrap_some env _ _ _ he happ, adminCalls_pull_file_body]
    simp
  · rw [admin_send_message_command]
    rcases hb2 : (admin_send_message_body env).2 with _ | e
    · simp
    · by_cases h : env.appAvailable <;> simp [h]
  · intro e he happ
    rw [admin_send_message_command, he]
    simp [happ, adminCalls_send_message_body env]

/-- Witness for C6 (amended): for the get-user-status command invoked by
the admin with no arguments (application available), the handler raises
internally and the admin-notification helper is called exactly once with
the arity error and the caller id. -/
theorem c6_witness :
    adminCalls (admin_get_user_status_command { baseEnv with args := [] }).1 =
      ["⚠️ Error admin_get_user_status_command: " ++ "Invalid number of arguments." ++
        "\nAdmin ID: " ++ "1"] := by
  have h := (c6_exceptions_reported_once { baseEnv with args := [] }).2.2.2.1
    "Invalid number of arguments." (by decide) rfl
  simpa [callerOrUnknown, baseEnv] using h

/-- C7 is false as stated: a pure validation failure (no arguments) in
the message-relay command does send a message to the caller — the fixed
technical-support text — though delivery never failed; and the pull-file
command sends nothing to the caller even when delivery itself fails,
though the claim says it echoes a friendlier failure line then. -/
theorem c7_counterexample :
    (admin_send_message_body { baseEnv with args := [] }).2 = some "Invalid number of arguments." ∧
    userMsgs (admin_send_message_command { baseEnv with args := [] }).1 = [FAIL_TECHNICAL_SUPPORT_TEXT] ∧
    (admin_pull_file_body { baseEnv with args := ["logs/a.log"], docSendResult := .error "boom" }).2 =
      some ("Failed to send file \x27" ++ "/users_data/logs/a.log" ++ "\x27: " ++ "boom") ∧
    userMsgs (admin_pull_file_command
      { baseEnv with args := ["logs/a.log"], docSendResult := .error "boom" }).1 = [] := by
  refine ⟨by decide, ?_, by decide, ?_⟩ <;> decide

/-- C7 amended: for an authorized caller, validation failures send
nothing to the calling chat in every command except the message-relay
one — the shared exception tail never messages the caller, the pull-file
and get-user-status commands never message the caller at all (in
particular the pull-file command does not echo a failure line even when
delivery itself fails), and arity, not-found and unmet-readiness
failures of the gated commands produce no user message; the
message-relay command, by contrast, sends the fixed technical-support
line to the caller on every failure, validation failures included (see
`c7_counterexample`). -/
theorem c7_validation_silence (env : Env) (a : String)
    (hc : env.callerId = .ok a) (ha : env.ADMIN_ID = a) (ha0 : a ≠ "") :
    userMsgs (admin_get_users_command env).1 = userMsgs (admin_get_users_body env).1 ∧
    userMsgs (admin_get_user_status_command env).1 = userMsgs (admin_get_user_status_body env).1 ∧
    userMsgs (admin_anazlyze_sourcing_criterais_command env).1 = userMsgs (admin_anazlyze_sourcing_criterais_body env).1 ∧
    userMsgs (admin_send_sourcing_criterais_to_user_command env).1 = userMsgs (admin_send_sourcing_criterais_to_user_body env).1 ∧
    userMsgs (admin_update_negotiations_command env).1 = userMsgs (admin_update_negotiations_body env).1 ∧
    userMsgs (admin_get_fresh_resumes_command env).1 = userMsgs (admin_get_fresh_resumes_body env).1 ∧
    userMsgs (admin_anazlyze_resumes_command env).1 = userMsgs (admin_anazlyze_resumes_body env).1 ∧
    userMsgs (admin_update_resume_records_with_applicants_video_status_command env).1 = userMsgs (admin_update_resume_records_with_applicants_video_status_body env).1 ∧
    userMsgs (admin_recommend_resumes_command env).1 = userMsgs (admin_recommend_resumes_body env).1 ∧
    userMsgs (admin_pull_file_command env).1 = userMsgs (admin_pull_file_body env).1 ∧
    (∀ e, (admin_send_message_body env).2 = some e →
      userMsgs (admin_send_message_command env).1 =
        userMsgs (admin_send_message_body env).1 ++ [FAIL_TECHNICAL_SUPPORT_TEXT]) ∧
    userMsgs (admin_pull_file_command env).1 = [] ∧
    userMsgs (admin_get_user_status_command env).1 = [] ∧
    (env.args.length ≠ 1 → userMsgs (admin_anazlyze_sourcing_criterais_command env).1 = []) ∧
    (env.args.length ≠ 1 → userMsgs (admin_send_sourcing_criterais_to_user_command env).1 = []) ∧
    (env.args.length ≠ 1 → userMsgs (admin_update_negotiations_command env).1 = []) ∧
    (env.args.length ≠ 1 → userMsgs (admin_get_fresh_resumes_command env).1 = []) ∧
    (env.args.length ≠ 1 → userMsgs (admin_anazlyze_resumes_command env).1 = []) ∧
    (env.args.length ≠ 1 → userMsgs (admin_update_resume_records_with_applicants_video_status_command env).1 = []) ∧
    (env.args.length ≠ 1 → userMsgs (admin_recommend_resumes_command env).1 = []) ∧
    (∀ u, env.args = [u] → u ≠ "" → u ∉ env.records →
      userMsgs (admin_anazlyze_sourcing_criterais_command env).1 = []) ∧
    (∀ u, env.args = [u] → u ≠ "" → u ∉ env.records →
      userMsgs (admin_send_sourcing_criterais_to_user_command env).1 = []) ∧
    (∀ u, env.args = [u] → u ≠ "" → u ∉ env.records →
      userMsgs (admin_update_negotiations_command env).1 = []) ∧
    (∀ u, env.args = [u] → u ≠ "" → u ∉ env.records →
      userMsgs (admin_get_fresh_resumes_command env).1 = []) ∧
    (∀ u, env.args = [u] → u ≠ "" → u ∉ env.records →
      userMsgs (admin_anazlyze_resumes_command env).1 = []) ∧
    (∀ u, env.args = [u] → u ≠ "" → u ∉ env.records →
      userMsgs (admin_update_resume_records_with_applicants_video_status_command env).1 = []) ∧
    (∀ u, env.args = [u] → u ≠ "" → u ∉ env.records →
      userMsgs (admin_recommend_resumes_command env).1 = []) ∧
    (∀ u, env.args = [u] → u ≠ "" → u ∈ env.records → env.is_vacancy_description_recieved u = false →
      userMsgs (admin_anazlyze_sourcing_criterais_command env).1 = []) ∧
    (∀ u, env.args = [u] → u ≠ "" → u ∈ env.records → env.is_vacancy_sourcing_criterias_recieved u = false →
      userMsgs (admin_send_sourcing_criterais_to_user_command env).1 = []) ∧
    (∀ u, env.args = [u] → u ≠ "" → u ∈ env.records → env.is_vacancy_selected u = false →
      userMsgs (admin_update_negotiations_command env).1 = []) ∧
    (∀ u, env.args = [u] → u ≠ "" → u ∈ env.records → env.is_vacany_data_enough_for_resume_analysis u = false →
      userMsgs (admin_get_fresh_resumes_command env).1 = []) ∧
    (∀ u, env.args = [u] → u ≠ "" → u ∈ env.records → env.is_vacany_data_enough_for_resume_analysis u = false →
      userMsgs (admin_anazlyze_resumes_command env).1 = []) ∧
    (∀ u, env.args = [u] → u ≠ "" → u ∈ env.records → env.is_vacany_data_enough_for_resume_analysis u = false →
      userMsgs (admin_update_resume_records_with_applicants_video_status_command env).1 = []) ∧
    (∀ u, env.args = [u] → u ≠ "" → u ∈ env.records → env.is_vacany_data_enough_for_resume_analysis u = false →
      userMsgs (admin_recommend_resumes_command env).1 = []) ∧
    (env.args.length < 2 →
      userMsgs (admin_send_message_command env).1 = [FAIL_TECHNICAL_SUPPORT_TEXT]) := by
  refine ⟨?_, ?_, ?_, ?_, ?_, ?_, ?_, ?_, ?_, ?_, ?_, ?_, ?_, ?_, ?_, ?_, ?_, ?_, ?_, ?_, ?_, ?_, ?_, ?_, ?_, ?_, ?_, ?_, ?_, ?_, ?_, ?_, ?_, ?_, ?_⟩
  · simp [admin_get_users_command]
  · simp [admin_get_user_status_command]
  · simp [admin_anazlyze_sourcing_criterais_command]
  · simp [admin_send_sourcing_criterais_to_user_command]
  · simp [admin_update_negotiations_command]
  · simp [admin_get_fresh_resumes_command]
  · simp [admin_anazlyze_resumes_command]
  · simp [admin_update_resume_records_with_applicants_video_status_command]
  · simp [admin_recommend_resumes_command]
  · simp [admin_pull_file_command]
  · intro e he
    rw [admin_send_message_command, he]
    by_cases h : env.appAvailable <;> simp [h]
  · simp [admin_pull_file_command, userMsgs_pull_file_body_auth env a hc ha ha0]
  · simp [admin_get_user_status_command, userMsgs_get_user_status_body_auth env a hc ha ha0]
  · intro hlen
    have hb := anazlyze_sourcing_criterais_body_bad_arity env a hc ha ha0 hlen
    simp [admin_anazlyze_sourcing_criterais_command, hb]
  · intro hlen
    have hb := send_sourcing_criterais_to_user_body_bad_arity env a hc ha ha0 hlen
    simp [admin_send_sourcing_criterais_to_user_command, hb]
  · intro hlen
    have hb := update_negotiations_body_bad_arity env a hc ha ha0 hlen
    simp [admin_update_negotiations_command, hb]
  · intro hlen
    have hb := get_fresh_resumes_body_bad_arity env a hc ha ha0 hlen
    simp [admin_get_fresh_resumes_command, hb]
  · intro hlen
    have hb := anazlyze_resumes_body_bad_arity env a hc ha ha0 hlen
    simp [admin_anazlyze_resumes_command, hb]
  · intro hlen
    have hb := update_resume_records_with_applicants_video_status_body_bad_arity env a hc ha ha0 hlen
    simp [admin_update_resume_records_with_applicants_video_status_command, hb]
  · intro hlen
    have hb := recommend_resumes_body_bad_arity env a hc ha ha0 hlen
    simp [admin_recommend_resumes_command, hb]
  · intro u hA hu hrec
    have hb := anazlyze_sourcing_criterais_body_not_in_records env a u hc ha ha0 hA hu hrec
    simp [admin_anazlyze_sourcing_criterais_command, hb]
  · intro u hA hu hrec
    have hb := send_sourcing_criterais_to_user_body_not_in_records env a u hc ha ha0 hA hu hrec
    simp [admin_send_sourcing_criterais_to_user_command, hb]
  · intro u hA hu hrec
    have hb := update_negotiations_body_not_in_records env a u hc ha ha0 hA hu hrec
    simp [admin_update_negotiations_command, hb]
  · intro u hA hu hrec
    have hb := get_fresh_resumes_body_not_in_records env a u hc ha ha0 hA hu hrec
    simp [admin_get_fresh_resumes_command, hb]
  · intro u hA hu hrec
    have hb := anazlyze_resumes_body_not_in_records env a u hc ha ha0 hA hu hrec
    simp [admin_anazlyze_resumes_command, hb]
  · intro u hA hu hrec
    have hb := update_resume_records_with_applicants_video_status_body_not_in_records env a u hc ha ha0 hA hu hrec
    simp [admin_update_resume_records_with_applicants_video_status_command, hb]
  · intro u hA hu hrec
    have hb := recommend_resumes_body_not_in_records env a u hc ha ha0 hA hu hrec
    simp [admin_recommend_resumes_command, hb]
  · intro u hA hu hrec hp
    have hb := anazlyze_sourcing_criterais_body_not_ready env a u hc ha ha0 hA hu hrec hp
    simp [admin_anazlyze_sourcing_criterais_command, hb]
  · intro u hA hu hrec hp
    have hb := send_sourcing_criterais_to_user_body_not_ready env a u hc ha ha0 hA hu hrec hp
    simp [admin_send_sourcing_criterais_to_user_command, hb]
  · intro u hA hu hrec hp
    have hb := update_negotiations_body_not_ready env a u hc ha ha0 hA hu hrec hp
    simp [admin_update_negotiations_command, hb]
  · intro u hA hu hrec hp
    have hb := get_fresh_resumes_body_not_ready env a u hc ha ha0 hA hu hrec hp
    simp [admin_get_fresh_resumes_command, hb]
  · intro u hA hu hrec hp
    have hb := anazlyze_resumes_body_not_ready env a u hc ha ha0 hA hu hrec hp
    simp [admin_anazlyze_resumes_command, hb]
  · intro u hA hu hrec hp
    have hb := update_resume_records_with_applicants_video_status_body_not_ready env a u hc ha ha0 hA hu hrec hp
    simp [admin_update_resume_records_with_applicants_video_status_command, hb]
  · intro u hA hu hrec hp
    have hb := recommend_resumes_body_not_ready env a u hc ha ha0 hA hu hrec hp
    simp [admin_recommend_resumes_command, hb]
  · intro hlen
    have hb := send_message_body_bad_arity env a hc ha ha0 hlen
    rw [admin_send_message_command, hb]
    by_cases h : env.appAvailable <;> simp [h]

/-- Witness for C7 (amended): the admin calling the message-relay
command without arguments receives exactly the technical-support text. -/
theorem c7_witness :
    userMsgs (admin_send_message_command { baseEnv with args := [] }).1 =
      [FAIL_TECHNICAL_SUPPORT_TEXT] :=
  (c7_validation_silence { baseEnv with args := [] } "1" rfl rfl (by decide)).2.2.2.2.2.2.2.2.2.2.2.2.2.2.2.2.2.2.2.2.2.2.2.2.2.2.2.2.2.2.2.2.2.2
    (by decide)

/-- C8: the code contradicts the claim (and the spec's step 4): when the
update-negotiations command's predicate `is_vacancy_selected` is false
for user `"7"`, the raised error reads "does not have enough vacancy
data for resume analysis" — naming the resume-analysis precondition of a
different command, not the vacancy-selected one; the same copy-pasted
message is raised by the send-sourcing-criteria command whose predicate
is `is_vacancy_sourcing_criterias_recieved`.  (For contrast, the
analyze-sourcing-criteria command does name its own precondition.) -/
theorem c8_wrong_precondition_named :
    (admin_update_negotiations_body
        { baseEnv with is_vacancy_selected := fun _ => false }).2 =
      some ("User " ++ "7" ++ " does not have enough vacancy data for resume analysis.") ∧
    (admin_send_sourcing_criterais_to_user_body
        { baseEnv with is_vacancy_sourcing_criterias_recieved := fun _ => false }).2 =
      some ("User " ++ "7" ++ " does not have enough vacancy data for resume analysis.") ∧
    (admin_anazlyze_sourcing_criterais_body
        { baseEnv with is_vacancy_description_recieved := fun _ => false }).2 =
      some ("User " ++ "7" ++ " does not have vacancy description received.") := by
  refine ⟨by decide, by decide, by decide⟩

/-- C9: `send_message_to_admin` never raises — its result carries no
uncaught exception for any environment and text, including when the
transport send or the `int` conversion of `ADMIN_ID` fails — and it
sends nothing on the admin channel when `ADMIN_ID` is unset/empty or the
application or bot instance is unavailable, so an error report can be
silently dropped. -/
theorem c9_send_message_to_admin_total (env : Env) (t : String) :
    (send_message_to_admin env t).2 = none ∧
    (env.ADMIN_ID = "" → adminSends (send_message_to_admin env t).1 = []) ∧
    (env.appAvailable = false → adminSends (send_message_to_admin env t).1 = []) ∧
    (env.botAvailable = false → adminSends (send_message_to_admin env t).1 = []) := by
  refine ⟨smta_snd env t, ?_, ?_, ?_⟩
  · intro h1
    simp [send_message_to_admin, h1]
  · intro h2
    by_cases h1 : env.ADMIN_ID = ""
    · simp [send_message_to_admin, h1]
    · simp [send_message_to_admin, h1, h2]
  · intro h3
    by_cases h1 : env.ADMIN_ID = ""
    · simp [send_message_to_admin, h1]
    · simp [send_message_to_admin, h1, h3]

/-- Witness for C9: with `ADMIN_ID` empty the helper returns without
raising and without sending anything. -/
theorem c9_witness :
    (send_message_to_admin { baseEnv with ADMIN_ID := "" } "report").2 = none ∧
    adminSends (send_message_to_admin { baseEnv with ADMIN_ID := "" } "report").1 = [] :=
  ⟨(c9_send_message_to_admin_total { baseEnv with ADMIN_ID := "" } "report").1,
    (c9_send_message_to_admin_total { baseEnv with ADMIN_ID := "" } "report").2.1 rfl⟩

/-- C10: on the successful path of the recommend-resumes command the
confirmation sent to the invoking chat is the literal string
"Recommending resumes is triggered for user \x7btarget_user_id\x7d." —
the source string is not an f-string, so the placeholder is sent
verbatim and the text does not depend on the target user id. -/
theorem c10_recommend_literal_placeholder (env : Env) (a u : String)
    (hc : env.callerId = .ok a) (ha : env.ADMIN_ID = a) (ha0 : a ≠ "")
    (hargs : env.args = [u]) (hu : u ≠ "") (hrec : u ∈ env.records)
    (hp : env.is_vacany_data_enough_for_resume_analysis u = true)
    (hd : env.delegateResult "recommend_resumes_triggered_by_admin_command" u = .ok ()) :
    userMsgs (admin_recommend_resumes_command env).1 =
      ["Recommending resumes is triggered for user \x7btarget_user_id\x7d."] := by
  simp [admin_recommend_resumes_command, admin_recommend_resumes_body, is_user_in_records,
    hc, ha, ha0, hargs, hu, hrec, hp, hd]

/-- Witness for C10: recommending for user `"7"` sends the verbatim
placeholder text, which does not mention `"7"`. -/
theorem c10_witness :
    userMsgs (admin_recommend_resumes_command baseEnv).1 =
      ["Recommending resumes is triggered for user \x7btarget_user_id\x7d."] :=
  c10_recommend_literal_placeholder baseEnv "1" "7" rfl rfl (by decide) rfl (by decide)
    (by decide) rfl rfl

end ManagerBot
